import Mathlib

/-!
# dclone: reconstruction of a `docker run` command line

A shallow embedding of `src/main.go`.  The program inspects a container and
its image and maps the two records to an ordered list of command-line tokens
(`parts`), which it prints joined by single spaces.

The file first models the library functions that `main` calls (Go's
`strings`, `strconv`, `path`, and the two Docker helper libraries), then the
records, then every statement of `main` that appends to `parts`, in source
order.
-/

set_option autoImplicit false
set_option linter.dupNamespace false

/-! ## Go standard library -/

namespace strings

/-- Go `strings.Join(elems, sep)`. -/
def Join : List String → String → String
  | [], _ => ""
  | a :: as, sep => as.foldl (fun acc s => acc ++ sep ++ s) a

/-- Go `strings.HasPrefix(s, p)`: whether `s` begins with `p`. -/
def HasPrefix (s p : String) : Bool :=
  p.data.isPrefixOf s.data

/-- Pieces of `s` between occurrences of the separator character `c`
(the working part of Go `strings.Split` for a one-character separator);
`cur` holds the piece being read, reversed. -/
def splitChars (c : Char) : List Char → List Char → List (List Char)
  | [], cur => [cur.reverse]
  | x :: xs, cur =>
    if x = c then cur.reverse :: splitChars c xs [] else splitChars c xs (x :: cur)

/-- Go `strings.Split(s, "/")`. -/
def SplitSlash (s : String) : List String :=
  (splitChars '/' s.data []).map String.mk

end strings

namespace strconv

/-- Go `strconv.FormatInt(i, 10)`: the decimal rendering of a signed integer. -/
def FormatInt (i : Int) : String :=
  match i with
  | Int.ofNat n => Nat.repr n
  | Int.negSucc n => "-" ++ Nat.repr (n + 1)

/-- Go `strconv.Itoa(i)`, which is `FormatInt(int64(i), 10)`. -/
def Itoa (i : Int) : String :=
  FormatInt i

end strconv

namespace path

/-- The part of a reversed path that precedes its first `/` (that is, the last
element of the path), still reversed. -/
def lastElemRev : List Char → List Char
  | [] => []
  | c :: cs => if c = '/' then [] else c :: lastElemRev cs

/-- Go `path.Base(p)`: `"."` for the empty path; otherwise trailing slashes
are removed and the text after the last remaining slash is returned, or `"/"`
when nothing remains. -/
def Base (p : String) : String :=
  if p = "" then "."
  else
    let stripped := p.data.reverse.dropWhile (fun c => c = '/')
    let last := (lastElemRev stripped).reverse
    if last = [] then "/" else String.mk last

end path

/-! ## github.com/docker/go-units

`units.HumanSize(float64(n))` is called on `int64` fields.  A `float64` that
is zero or lies in `[1, 2^64)` is a multiple of `2^-52`, so such a value is
held exactly as a natural number of units of `2^-52`.  Every value the calls
below produce is of that kind: the conversion of an integer is zero or at
least one, and `getSizeAndUnit` divides only a size that is at least `1000`.
-/

namespace units

/-- The float64 value `1.0` in units of `2^-52`. -/
def one : Nat := 2 ^ 52

/-- The integer nearest to `a / b`, ties going to the even one (IEEE 754
round-to-nearest-even). -/
def roundNearestEven (a b : Nat) : Nat :=
  let m := a / b
  let r := a % b
  if 2 * r < b then m
  else if b < 2 * r then m + 1
  else if m % 2 = 0 then m else m + 1

/-- How many low bits `x` has beyond the 53 bits of a float64 significand. -/
def excessBits : Nat → Nat → Nat
  | 0, _ => 0
  | fuel + 1, x => if x < 2 ^ 53 then 0 else excessBits fuel (x / 2) + 1

/-- The float64 nearest to the exact quotient `a / b` (all in units of
`2^-52`): the quotient is rounded to a 53-bit significand. -/
def toFloat64 (a b : Nat) : Nat :=
  let k := excessBits 64 (a / b)
  roundNearestEven a (b * 2 ^ k) * 2 ^ k

/-- The table `decimapAbbrs` of go-units. -/
def decimapAbbrs : List String :=
  ["B", "kB", "MB", "GB", "TB", "PB", "EB", "ZB", "YB"]

/-- The loop of go-units `getSizeAndUnit(size, 1000.0, decimapAbbrs)`:
`for size >= base && i < unitsLimit { size = size / base; i++ }`.
The loop body runs at most `unitsLimit = 8` times, which is the fuel given
to it by `HumanSize`. -/
def getSizeAndUnit : Nat → Nat → Nat → Nat × Nat
  | 0, size, i => (size, i)
  | fuel + 1, size, i =>
    if 1000 * one ≤ size ∧ i < 8 then getSizeAndUnit fuel (toFloat64 size 1000) (i + 1)
    else (size, i)

/-- The decimal exponent of a value `x ≥ 1` (in units of `2^-52`): the least
`e`, counted from `e`, with `x < 10^(e+1)`. -/
def decExp : Nat → Nat → Nat → Nat
  | 0, _, e => e
  | fuel + 1, x, e => if x < 10 ^ (e + 1) * one then e else decExp fuel x (e + 1)

/-- Decimal digits without the trailing zeros. -/
def trimZeros (ds : List Nat) : List Nat :=
  (ds.reverse.dropWhile (fun d => d = 0)).reverse

/-- The characters of a list of decimal digits. -/
def digitString (ds : List Nat) : String :=
  String.mk (ds.map Nat.digitChar)

/-- Go `fmt.Sprintf("%.4g", v)` for a float64 `v` that is zero or at least
one, given in units of `2^-52`: the value is rounded to four significant
digits, trailing zeros are dropped, and the exponent form is used when the
decimal exponent is four or more. -/
def fmtG4 (x : Nat) : String :=
  if x = 0 then "0"
  else
    let e0 := decExp 20 x 0
    let d0 := roundNearestEven (x * 1000) (one * 10 ^ e0)
    let e := if 10000 ≤ d0 then e0 + 1 else e0
    let d := if 10000 ≤ d0 then 1000 else d0
    let ds := trimZeros [d / 1000, d / 100 % 10, d / 10 % 10, d % 10]
    if 4 ≤ e then
      digitString (ds.take 1)
        ++ (if 1 < ds.length then "." ++ digitString (ds.drop 1) else "")
        ++ "e+" ++ digitString [e / 10, e % 10]
    else
      digitString ([d / 1000, d / 100 % 10, d / 10 % 10, d % 10].take (e + 1))
        ++ (if e + 1 < ds.length then "." ++ digitString (ds.drop (e + 1)) else "")

/-- go-units `HumanSize(float64(n))` for an `int64` value `n`:
`HumanSizeWithPrecision(size, 4)`, which scales the size by powers of 1000
with `getSizeAndUnit(size, 1000.0, decimapAbbrs)` and prints it with
`fmt.Sprintf("%.*g%s", 4, size, unit)`.  A negative size is below the base,
so it is printed unscaled with the unit `"B"`.  (Early releases of go-units
printed a space before the unit; the scaling by 1000 and the unit table are
the same in all of them.) -/
def HumanSize (n : Int) : String :=
  let size := toFloat64 (n.natAbs * one) 1
  if n < 0 then "-" ++ fmtG4 size ++ "B"
  else
    let su := getSizeAndUnit 8 size 0
    fmtG4 su.1 ++ decimapAbbrs.getD su.2 ""

/-- One `units.Ulimit` as `main` builds it. -/
structure Ulimit where
  Name : String := ""
  Hard : Int := 0
  Soft : Int := 0
deriving DecidableEq, Repr

/-- go-units `(*Ulimit).String()`: `fmt.Sprintf("%s=%d:%d", u.Name, u.Soft, u.Hard)`. -/
def Ulimit.String (u : Ulimit) : String :=
  u.Name ++ "=" ++ strconv.FormatInt u.Soft ++ ":" ++ strconv.FormatInt u.Hard

end units

/-! ## github.com/fsouza/go-dockerclient

Only the fields that `main` reads are kept.  A Go map is held as the list of
its entries in the order in which `range` visits them; a field left out of a
record literal has its Go zero value. -/

namespace docker

/-- The type `docker.Port`, a string such as `"80/tcp"`. -/
structure Port where
  val : String := ""
deriving DecidableEq

/-- The method `(Port).Port()`: `strings.Split(string(p), "/")[0]`. -/
def Port.Port (p : docker.Port) : String :=
  (strings.SplitSlash p.val).headD ""

/-- The method `(Port).Proto()`: `"tcp"` when the split has one part, else
its second part. -/
def Port.Proto (p : docker.Port) : String :=
  match strings.SplitSlash p.val with
  | [_] => "tcp"
  | parts => parts.getD 1 ""

structure PortBinding where
  HostIP : String := ""
  HostPort : String := ""
deriving DecidableEq

structure RestartPolicy where
  Name : String := ""
  MaximumRetryCount : Int := 0
deriving DecidableEq

/-- The field `Type` is written `Type_`, the former being reserved. -/
structure LogConfig where
  Type_ : String := ""
  Config : List (String × String) := []
deriving DecidableEq

structure ULimit where
  Name : String := ""
  Soft : Int := 0
  Hard : Int := 0
deriving DecidableEq

structure Device where
  PathOnHost : String := ""
  PathInContainer : String := ""
  CgroupPermissions : String := ""
deriving DecidableEq

structure BlockWeight where
  Path : String := ""
  Weight : String := ""
deriving DecidableEq

structure BlockLimit where
  Path : String := ""
  Rate : String := ""
deriving DecidableEq

structure Config where
  Hostname : String := ""
  User : String := ""
  AttachStdin : Bool := false
  AttachStdout : Bool := false
  AttachStderr : Bool := false
  Tty : Bool := false
  OpenStdin : Bool := false
  Cmd : List String := []
  Image : String := ""
  WorkingDir : String := ""
  Entrypoint : List String := []
  MacAddress : String := ""
  Labels : List (String × String) := []
  StopSignal : String := ""

structure HostConfig where
  AutoRemove : Bool := false
  NetworkMode : String := ""
  Memory : Int := 0
  MemoryReservation : Int := 0
  MemorySwap : Int := 0
  MemorySwappiness : Int := 0
  KernelMemory : Int := 0
  CPUPeriod : Int := 0
  CPUQuota : Int := 0
  CPUShares : Int := 0
  CPUSetCPUs : String := ""
  CPUSetMEMs : String := ""
  Privileged : Bool := false
  PublishAllPorts : Bool := false
  ReadonlyRootfs : Bool := false
  Binds : List String := []
  VolumeDriver : String := ""
  VolumesFrom : List String := []
  CapAdd : List String := []
  CapDrop : List String := []
  GroupAdd : List String := []
  Links : List String := []
  DNS : List String := []
  DNSOptions : List String := []
  DNSSearch : List String := []
  ContainerIDFile : String := ""
  BlkioWeight : Int := 0
  BlkioWeightDevice : List BlockWeight := []
  ExtraHosts : List String := []
  CgroupParent : String := ""
  RestartPolicy : RestartPolicy := {}
  OOMKillDisable : Bool := false
  OomScoreAdj : Int := 0
  Ulimits : List ULimit := []
  Tmpfs : List (String × String) := []
  UsernsMode : String := ""
  UTSMode : String := ""
  PidMode : String := ""
  PidsLimit : Int := 0
  IpcMode : String := ""
  StorageOpt : List (String × String) := []
  ShmSize : Int := 0
  Sysctls : List (String × String) := []
  LogConfig : LogConfig := {}
  SecurityOpt : List String := []
  Devices : List Device := []
  BlkioDeviceReadBps : List BlockLimit := []
  BlkioDeviceWriteBps : List BlockLimit := []
  BlkioDeviceReadIOps : List BlockLimit := []
  BlkioDeviceWriteIOps : List BlockLimit := []
  PortBindings : List (Port × List PortBinding) := []

/-- The result of `InspectContainer`. -/
structure Container where
  ID : String := ""
  Name : String := ""
  Config : Config := {}
  HostConfig : HostConfig := {}

/-- The result of `InspectImage`. -/
structure Image where
  Config : Config := {}

end docker

/-! ## The statements of `main`

Each definition is one statement of `main` that appends to `parts`, as a
function from the value of `parts` before the statement to its value after.
A `for ... range` loop is a left fold over the ranged list. -/

namespace dclone

open docker

/-- `fmt.Sprintf("%s=%s", k, v)`. -/
def keyValue (kv : String × String) : String :=
  kv.1 ++ "=" ++ kv.2

/-- Lines 86-88. -/
def appendAutoRemove (ctr : Container) (parts : List String) : List String :=
  if ctr.HostConfig.AutoRemove then parts ++ ["--rm"] else parts

/-- Lines 89-91. -/
def appendOpenStdin (ctr : Container) (parts : List String) : List String :=
  if ctr.Config.OpenStdin then parts ++ ["--interactive"] else parts

/-- Lines 92-94. -/
def appendTty (ctr : Container) (parts : List String) : List String :=
  if ctr.Config.Tty then parts ++ ["--tty"] else parts

/-- Lines 95-109. -/
def appendAttach (ctr : Container) (parts : List String) : List String :=
  if !ctr.Config.AttachStdin || !ctr.Config.AttachStdout || !ctr.Config.AttachStderr then
    if !ctr.Config.AttachStdin && !ctr.Config.AttachStdout && !ctr.Config.AttachStderr then
      parts ++ ["--detach"]
    else
      let parts := if ctr.Config.AttachStdin then parts ++ ["--attach", "stdin"] else parts
      let parts := if ctr.Config.AttachStdout then parts ++ ["--attach", "stdout"] else parts
      let parts := if ctr.Config.AttachStderr then parts ++ ["--attach", "stderr"] else parts
      parts
  else parts

/-- Lines 111-113. -/
def appendName (ctr : Container) (parts : List String) : List String :=
  if ctr.Name ≠ "" then parts ++ ["--name", path.Base ctr.Name] else parts

/-- Lines 114-116. -/
def appendHostname (ctr : Container) (parts : List String) : List String :=
  if ctr.Config.Hostname ≠ "" ∧ ¬ strings.HasPrefix ctr.ID ctr.Config.Hostname = true then
    parts ++ ["--hostname", ctr.Config.Hostname]
  else parts

/-- Lines 117-119. -/
def appendNetworkMode (ctr : Container) (parts : List String) : List String :=
  if ctr.HostConfig.NetworkMode ≠ "default" then parts ++ ["--network", ctr.HostConfig.NetworkMode]
  else parts

/-- Lines 120-122. -/
def appendMemory (ctr : Container) (parts : List String) : List String :=
  if ctr.HostConfig.Memory ≠ 0 then parts ++ ["--memory", units.HumanSize ctr.HostConfig.Memory]
  else parts

/-- Lines 123-125. -/
def appendMemoryReservation (ctr : Container) (parts : List String) : List String :=
  if ctr.HostConfig.MemoryReservation ≠ 0 then
    parts ++ ["--memory-reservation", units.HumanSize ctr.HostConfig.MemoryReservation]
  else parts

/-- Lines 126-128. -/
def appendMemorySwap (ctr : Container) (parts : List String) : List String :=
  if ctr.HostConfig.MemorySwap ≠ 0 then
    parts ++ ["--memory-swap", units.HumanSize ctr.HostConfig.MemorySwap]
  else parts

/-- Lines 129-131. -/
def appendMemorySwappiness (ctr : Container) (parts : List String) : List String :=
  if ctr.HostConfig.MemorySwappiness ≠ -1 then
    parts ++ ["--memory-swappiness", strconv.FormatInt ctr.HostConfig.MemorySwappiness]
  else parts

/-- Lines 132-134. -/
def appendKernelMemory (ctr : Container) (parts : List String) : List String :=
  if ctr.HostConfig.KernelMemory ≠ 0 then
    parts ++ ["--kernel-memory", units.HumanSize ctr.HostConfig.KernelMemory]
  else parts

/-- Lines 135-137. -/
def appendCPUPeriod (ctr : Container) (parts : List String) : List String :=
  if ctr.HostConfig.CPUPeriod ≠ 0 then
    parts ++ ["--cpu-period", strconv.FormatInt ctr.HostConfig.CPUPeriod]
  else parts

/-- Lines 138-140. -/
def appendCPUQuota (ctr : Container) (parts : List String) : List String :=
  if ctr.HostConfig.CPUQuota ≠ 0 then
    parts ++ ["--cpu-quota", strconv.FormatInt ctr.HostConfig.CPUQuota]
  else parts

/-- Lines 141-143. -/
def appendCPUShares (ctr : Container) (parts : List String) : List String :=
  if ctr.HostConfig.CPUShares ≠ 0 then
    parts ++ ["--cpu-shares", strconv.FormatInt ctr.HostConfig.CPUShares]
  else parts

/-- Lines 144-146. -/
def appendCPUSetCPUs (ctr : Container) (parts : List String) : List String :=
  if ctr.HostConfig.CPUSetCPUs ≠ "" then parts ++ ["--cpuset-cpus", ctr.HostConfig.CPUSetCPUs]
  else parts

/-- Lines 147-149. -/
def appendCPUSetMEMs (ctr : Container) (parts : List String) : List String :=
  if ctr.HostConfig.CPUSetMEMs ≠ "" then parts ++ ["--cpuset-mems", ctr.HostConfig.CPUSetMEMs]
  else parts

/-- Lines 150-152. -/
def appendPrivileged (ctr : Container) (parts : List String) : List String :=
  if ctr.HostConfig.Privileged then parts ++ ["--privileged"] else parts

/-- Lines 153-155. -/
def appendPublishAllPorts (ctr : Container) (parts : List String) : List String :=
  if ctr.HostConfig.PublishAllPorts then parts ++ ["--publish-all"] else parts

/-- Lines 156-158. -/
def appendReadonlyRootfs (ctr : Container) (parts : List String) : List String :=
  if ctr.HostConfig.ReadonlyRootfs then parts ++ ["--read-only"] else parts

/-- Lines 159-161. -/
def appendMacAddress (ctr : Container) (parts : List String) : List String :=
  if ctr.Config.MacAddress ≠ "" then parts ++ ["--mac-address", ctr.Config.MacAddress]
  else parts

/-- Lines 162-164: `fmt.Sprintf("'%s'", strings.Join(ctr.Config.Entrypoint, " "))`. -/
def appendEntrypoint (ctr : Container) (parts : List String) : List String :=
  if 0 < ctr.Config.Entrypoint.length then
    parts ++ ["--entrypoint", "'" ++ strings.Join ctr.Config.Entrypoint " " ++ "'"]
  else parts

/-- Lines 166-168. -/
def appendWorkingDir (ctr : Container) (parts : List String) : List String :=
  if ctr.Config.WorkingDir ≠ "" then parts ++ ["--workdir", ctr.Config.WorkingDir] else parts

/-- Lines 169-173. -/
def appendBinds (ctr : Container) (parts : List String) : List String :=
  if 0 < ctr.HostConfig.Binds.length then
    ctr.HostConfig.Binds.foldl (fun parts b => parts ++ ["--volume", b]) parts
  else parts

/-- Lines 174-176. -/
def appendVolumeDriver (ctr : Container) (parts : List String) : List String :=
  if ctr.HostConfig.VolumeDriver ≠ "" then
    parts ++ ["--volume-driver", ctr.HostConfig.VolumeDriver]
  else parts

/-- Lines 177-179. -/
def appendVolumesFrom (ctr : Container) (parts : List String) : List String :=
  ctr.HostConfig.VolumesFrom.foldl (fun parts vf => parts ++ ["--volumes-from", vf]) parts

/-- Lines 181-183. -/
def appendCapAdd (ctr : Container) (parts : List String) : List String :=
  ctr.HostConfig.CapAdd.foldl (fun parts ca => parts ++ ["--cap-add", ca]) parts

/-- Lines 185-187. -/
def appendCapDrop (ctr : Container) (parts : List String) : List String :=
  ctr.HostConfig.CapDrop.foldl (fun parts cd => parts ++ ["--cap-drop", cd]) parts

/-- Lines 189-191. -/
def appendGroupAdd (ctr : Container) (parts : List String) : List String :=
  ctr.HostConfig.GroupAdd.foldl (fun parts ga => parts ++ ["--group-add", ga]) parts

/-- Lines 193-195. -/
def appendLinks (ctr : Container) (parts : List String) : List String :=
  ctr.HostConfig.Links.foldl (fun parts l => parts ++ ["--link", l]) parts

/-- Lines 197-199. -/
def appendDNS (ctr : Container) (parts : List String) : List String :=
  ctr.HostConfig.DNS.foldl (fun parts d => parts ++ ["--dns", d]) parts

/-- Lines 201-203. -/
def appendDNSOptions (ctr : Container) (parts : List String) : List String :=
  ctr.HostConfig.DNSOptions.foldl (fun parts o => parts ++ ["--dns-opt", o]) parts

/-- Lines 205-207. -/
def appendDNSSearch (ctr : Container) (parts : List String) : List String :=
  ctr.HostConfig.DNSSearch.foldl (fun parts ds => parts ++ ["--dns-search", ds]) parts

/-- Lines 209-211. -/
def appendContainerIDFile (ctr : Container) (parts : List String) : List String :=
  if ctr.HostConfig.ContainerIDFile ≠ "" then
    parts ++ ["--cidfile", ctr.HostConfig.ContainerIDFile]
  else parts

/-- Lines 213-215. -/
def appendBlkioWeight (ctr : Container) (parts : List String) : List String :=
  if 0 < ctr.HostConfig.BlkioWeight then
    parts ++ ["--blkio-weight", strconv.FormatInt ctr.HostConfig.BlkioWeight]
  else parts

/-- Lines 216-218. -/
def appendLabels (ctr : Container) (parts : List String) : List String :=
  ctr.Config.Labels.foldl (fun parts kv => parts ++ ["--label", keyValue kv]) parts

/-- Lines 220-226: the pieces `res` of one weight device. -/
def blkioWeightDeviceRes (bwd : BlockWeight) : List String :=
  let res : List String := []
  if bwd.Path ≠ "" then
    let res := res ++ [bwd.Path]
    if bwd.Weight ≠ "" then res ++ [bwd.Weight] else res
  else res

/-- Lines 219-230. -/
def appendBlkioWeightDevice (ctr : Container) (parts : List String) : List String :=
  ctr.HostConfig.BlkioWeightDevice.foldl
    (fun parts bwd =>
      let res := blkioWeightDeviceRes bwd
      if 0 < res.length then parts ++ ["--blkio-weight-device", strings.Join res ":"] else parts)
    parts

/-- Lines 232-234. -/
def appendExtraHosts (ctr : Container) (parts : List String) : List String :=
  ctr.HostConfig.ExtraHosts.foldl (fun parts h => parts ++ ["--add-host", h]) parts

/-- Lines 236-238. -/
def appendCgroupParent (ctr : Container) (parts : List String) : List String :=
  if ctr.HostConfig.CgroupParent ≠ "" then
    parts ++ ["--cgroup-parent", ctr.HostConfig.CgroupParent]
  else parts

/-- Lines 240-246. -/
def appendRestartPolicy (ctr : Container) (parts : List String) : List String :=
  if ctr.HostConfig.RestartPolicy.Name ≠ "no" then
    let pol := ctr.HostConfig.RestartPolicy.Name
    let pol :=
      if pol = "on-failure" then
        pol ++ (":" ++ strconv.Itoa ctr.HostConfig.RestartPolicy.MaximumRetryCount)
      else pol
    parts ++ ["--restart", pol]
  else parts

/-- Lines 248-250. -/
def appendOOMKillDisable (ctr : Container) (parts : List String) : List String :=
  if ctr.HostConfig.OOMKillDisable then parts ++ ["--oom-kill-disable"] else parts

/-- Lines 251-253. -/
def appendOomScoreAdj (ctr : Container) (parts : List String) : List String :=
  if ctr.HostConfig.OomScoreAdj ≠ 0 then
    parts ++ ["--oom-score-adj", strconv.Itoa ctr.HostConfig.OomScoreAdj]
  else parts

/-- Lines 255-262. -/
def appendUlimits (ctr : Container) (parts : List String) : List String :=
  ctr.HostConfig.Ulimits.foldl
    (fun parts ul =>
      let uu : units.Ulimit := { Hard := ul.Hard, Name := ul.Name, Soft := ul.Soft }
      parts ++ ["--ulimit", uu.String])
    parts

/-- Lines 264-270. -/
def appendTmpfs (ctr : Container) (parts : List String) : List String :=
  ctr.HostConfig.Tmpfs.foldl
    (fun parts ktm =>
      let r := ktm.1
      let r := if ktm.2 ≠ "" then r ++ (":" ++ ktm.2) else r
      parts ++ ["--tmpfs", r])
    parts

/-- Lines 272-274. -/
def appendUsernsMode (ctr : Container) (parts : List String) : List String :=
  if ctr.HostConfig.UsernsMode ≠ "" then parts ++ ["--userns", ctr.HostConfig.UsernsMode]
  else parts

/-- Lines 275-277. -/
def appendUTSMode (ctr : Container) (parts : List String) : List String :=
  if ctr.HostConfig.UTSMode ≠ "" then parts ++ ["--uts", ctr.HostConfig.UTSMode] else parts

/-- Lines 278-280. -/
def appendUser (ctr : Container) (parts : List String) : List String :=
  if ctr.Config.User ≠ "" then parts ++ ["--user", ctr.Config.User] else parts

/-- Lines 281-283. -/
def appendPidMode (ctr : Container) (parts : List String) : List String :=
  if ctr.HostConfig.PidMode ≠ "" then parts ++ ["--pid", ctr.HostConfig.PidMode] else parts

/-- Lines 284-286. -/
def appendPidsLimit (ctr : Container) (parts : List String) : List String :=
  if 0 < ctr.HostConfig.PidsLimit then
    parts ++ ["--pids-limit", strconv.FormatInt ctr.HostConfig.PidsLimit]
  else parts

/-- Lines 287-289. -/
def appendIpcMode (ctr : Container) (parts : List String) : List String :=
  if ctr.HostConfig.IpcMode ≠ "" then parts ++ ["--ipc", ctr.HostConfig.IpcMode] else parts

/-- Lines 290-292. -/
def appendStopSignal (ctr : Container) (parts : List String) : List String :=
  if ctr.Config.StopSignal ≠ "" then parts ++ ["--stop-signal", ctr.Config.StopSignal]
  else parts

/-- Lines 294-296. -/
def appendStorageOpt (ctr : Container) (parts : List String) : List String :=
  ctr.HostConfig.StorageOpt.foldl (fun parts kv => parts ++ ["--storage-opt", keyValue kv]) parts

/-- Lines 298-300. -/
def appendShmSize (ctr : Container) (parts : List String) : List String :=
  if ctr.HostConfig.ShmSize ≠ 67108864 then
    parts ++ ["--shm-size", units.HumanSize ctr.HostConfig.ShmSize]
  else parts

/-- Lines 301-303. -/
def appendSysctls (ctr : Container) (parts : List String) : List String :=
  ctr.HostConfig.Sysctls.foldl (fun parts kv => parts ++ ["--sysctl", keyValue kv]) parts

/-- Lines 304-309. -/
def appendLogConfig (ctr : Container) (parts : List String) : List String :=
  if ctr.HostConfig.LogConfig.Type_ ≠ "json-file" ∨ 0 < ctr.HostConfig.LogConfig.Config.length then
    let parts := parts ++ ["--log-driver", ctr.HostConfig.LogConfig.Type_]
    ctr.HostConfig.LogConfig.Config.foldl (fun parts kv => parts ++ ["--log-opt", keyValue kv]) parts
  else parts

/-- Lines 310-312. -/
def appendSecurityOpt (ctr : Container) (parts : List String) : List String :=
  ctr.HostConfig.SecurityOpt.foldl (fun parts so => parts ++ ["--security-opt", so]) parts

/-- Lines 313-322. -/
def appendDevices (ctr : Container) (parts : List String) : List String :=
  ctr.HostConfig.Devices.foldl
    (fun parts dev =>
      let r := dev.PathOnHost
      let r :=
        if dev.PathInContainer ≠ "" then
          let r := r ++ (":" ++ dev.PathInContainer)
          if dev.CgroupPermissions ≠ "" then r ++ (":" ++ dev.CgroupPermissions) else r
        else r
      parts ++ ["--device", r])
    parts

/-- The body shared by the four loops of lines 323-350: the value `r` built
from one block limit. -/
def blockLimitValue (bl : BlockLimit) : String :=
  let r := bl.Path
  if bl.Rate ≠ "" then r ++ (":" ++ bl.Rate) else r

/-- Lines 323-329. -/
def appendBlkioDeviceReadBps (ctr : Container) (parts : List String) : List String :=
  ctr.HostConfig.BlkioDeviceReadBps.foldl
    (fun parts bl => parts ++ ["--device-read-bps", blockLimitValue bl]) parts

/-- Lines 330-336. -/
def appendBlkioDeviceWriteBps (ctr : Container) (parts : List String) : List String :=
  ctr.HostConfig.BlkioDeviceWriteBps.foldl
    (fun parts bl => parts ++ ["--device-write-bps", blockLimitValue bl]) parts

/-- Lines 337-343. -/
def appendBlkioDeviceReadIOps (ctr : Container) (parts : List String) : List String :=
  ctr.HostConfig.BlkioDeviceReadIOps.foldl
    (fun parts bl => parts ++ ["--device-read-iops", blockLimitValue bl]) parts

/-- Lines 344-350. -/
def appendBlkioDeviceWriteIOps (ctr : Container) (parts : List String) : List String :=
  ctr.HostConfig.BlkioDeviceWriteIOps.foldl
    (fun parts bl => parts ++ ["--device-write-iops", blockLimitValue bl]) parts

/-- Lines 355-372: the value published for one binding `pb` of the
container port `dp`. -/
def publishValue (dp : Port) (pb : PortBinding) : String :=
  let rpb : List String := []
  let rpb := if pb.HostIP ≠ "" then rpb ++ [pb.HostIP] else rpb
  let rpb := if pb.HostPort ≠ "" then rpb ++ [pb.HostPort] else rpb
  let rpbs := strings.Join rpb ":"
  let dpb : List String := []
  let dpb := if rpbs ≠ "" then dpb ++ [rpbs] else dpb
  let dpbs := dp.Port
  let dpbs := if dp.Proto ≠ "tcp" then dpbs ++ ("/" ++ dp.Proto) else dpbs
  let dpb := dpb ++ [dpbs]
  strings.Join dpb ":"

/-- Lines 352-375. -/
def appendPortBindings (ctr : Container) (parts : List String) : List String :=
  if ¬ ctr.HostConfig.PublishAllPorts = true ∧ 0 < ctr.HostConfig.PortBindings.length then
    ctr.HostConfig.PortBindings.foldl
      (fun parts entry =>
        entry.2.foldl (fun parts pb => parts ++ ["--publish", publishValue entry.1 pb]) parts)
      parts
  else parts

/-- Lines 377-379. -/
def appendImage (ctr : Container) (parts : List String) : List String :=
  if ctr.Config.Image ≠ "" then parts ++ [ctr.Config.Image] else parts

/-- Lines 382-388: the inner loop, which sets `hasArg` when the container
argument `p` equals some image argument. -/
def hasArg (p : String) : List String → Bool
  | [] => false
  | c :: cs => if p = c then true else hasArg p cs

/-- Lines 380-393: the outer loop, which sets `hasDiffArg` at the first
container argument for which `hasArg` stays false. -/
def hasDiffArg : List String → List String → Bool
  | [], _ => false
  | p :: ps, imgCmd => if !hasArg p imgCmd then true else hasDiffArg ps imgCmd

/-- Lines 380-396. -/
def appendCmd (ctr : Container) (img : Image) (parts : List String) : List String :=
  if hasDiffArg ctr.Config.Cmd img.Config.Cmd then parts ++ ctr.Config.Cmd else parts

/-- The value of `parts` when `main` reaches line 377: the base tokens of
line 85 followed by every flag. -/
def flagParts (ctr : Container) : List String :=
  let parts := ["docker", "run"]
  let parts := appendAutoRemove ctr parts
  let parts := appendOpenStdin ctr parts
  let parts := appendTty ctr parts
  let parts := appendAttach ctr parts
  let parts := appendName ctr parts
  let parts := appendHostname ctr parts
  let parts := appendNetworkMode ctr parts
  let parts := appendMemory ctr parts
  let parts := appendMemoryReservation ctr parts
  let parts := appendMemorySwap ctr parts
  let parts := appendMemorySwappiness ctr parts
  let parts := appendKernelMemory ctr parts
  let parts := appendCPUPeriod ctr parts
  let parts := appendCPUQuota ctr parts
  let parts := appendCPUShares ctr parts
  let parts := appendCPUSetCPUs ctr parts
  let parts := appendCPUSetMEMs ctr parts
  let parts := appendPrivileged ctr parts
  let parts := appendPublishAllPorts ctr parts
  let parts := appendReadonlyRootfs ctr parts
  let parts := appendMacAddress ctr parts
  let parts := appendEntrypoint ctr parts
  let parts := appendWorkingDir ctr parts
  let parts := appendBinds ctr parts
  let parts := appendVolumeDriver ctr parts
  let parts := appendVolumesFrom ctr parts
  let parts := appendCapAdd ctr parts
  let parts := appendCapDrop ctr parts
  let parts := appendGroupAdd ctr parts
  let parts := appendLinks ctr parts
  let parts := appendDNS ctr parts
  let parts := appendDNSOptions ctr parts
  let parts := appendDNSSearch ctr parts
  let parts := appendContainerIDFile ctr parts
  let parts := appendBlkioWeight ctr parts
  let parts := appendLabels ctr parts
  let parts := appendBlkioWeightDevice ctr parts
  let parts := appendExtraHosts ctr parts
  let parts := appendCgroupParent ctr parts
  let parts := appendRestartPolicy ctr parts
  let parts := appendOOMKillDisable ctr parts
  let parts := appendOomScoreAdj ctr parts
  let parts := appendUlimits ctr parts
  let parts := appendTmpfs ctr parts
  let parts := appendUsernsMode ctr parts
  let parts := appendUTSMode ctr parts
  let parts := appendUser ctr parts
  let parts := appendPidMode ctr parts
  let parts := appendPidsLimit ctr parts
  let parts := appendIpcMode ctr parts
  let parts := appendStopSignal ctr parts
  let parts := appendStorageOpt ctr parts
  let parts := appendShmSize ctr parts
  let parts := appendSysctls ctr parts
  let parts := appendLogConfig ctr parts
  let parts := appendSecurityOpt ctr parts
  let parts := appendDevices ctr parts
  let parts := appendBlkioDeviceReadBps ctr parts
  let parts := appendBlkioDeviceWriteBps ctr parts
  let parts := appendBlkioDeviceReadIOps ctr parts
  let parts := appendBlkioDeviceWriteIOps ctr parts
  let parts := appendPortBindings ctr parts
  parts

/-- The value of `parts` when `main` reaches line 397. -/
def parts (ctr : Container) (img : Image) : List String :=
  let parts := flagParts ctr
  let parts := appendImage ctr parts
  let parts := appendCmd ctr img parts
  parts

/-- Line 397: the line that `fmt.Println(strings.Join(parts, " "))` writes. -/
def output (ctr : Container) (img : Image) : String :=
  strings.Join (parts ctr img) " " ++ "\n"

/-! ## The statements in sequence -/

/-- The statements of lines 86-375 that append to `parts`, in source order
(numbered from 0). -/
def flagSteps : List (Container → List String → List String) :=
  [appendAutoRemove, appendOpenStdin, appendTty, appendAttach, appendName, appendHostname,
   appendNetworkMode, appendMemory, appendMemoryReservation, appendMemorySwap,
   appendMemorySwappiness, appendKernelMemory, appendCPUPeriod, appendCPUQuota,
   appendCPUShares, appendCPUSetCPUs, appendCPUSetMEMs, appendPrivileged,
   appendPublishAllPorts, appendReadonlyRootfs, appendMacAddress, appendEntrypoint,
   appendWorkingDir, appendBinds, appendVolumeDriver, appendVolumesFrom, appendCapAdd,
   appendCapDrop, appendGroupAdd, appendLinks, appendDNS, appendDNSOptions, appendDNSSearch,
   appendContainerIDFile, appendBlkioWeight, appendLabels, appendBlkioWeightDevice,
   appendExtraHosts, appendCgroupParent, appendRestartPolicy, appendOOMKillDisable,
   appendOomScoreAdj, appendUlimits, appendTmpfs, appendUsernsMode, appendUTSMode, appendUser,
   appendPidMode, appendPidsLimit, appendIpcMode, appendStopSignal, appendStorageOpt,
   appendShmSize, appendSysctls, appendLogConfig, appendSecurityOpt, appendDevices,
   appendBlkioDeviceReadBps, appendBlkioDeviceWriteBps, appendBlkioDeviceReadIOps,
   appendBlkioDeviceWriteIOps, appendPortBindings]

/-- The value of `parts` after the statements `steps` have run, one after
another, from the value `init`. -/
def runSteps (steps : List (Container → List String → List String)) (ctr : Container)
    (init : List String) : List String :=
  steps.foldl (fun parts step => step ctr parts) init

/-- The value of `parts` when `main` reaches statement number `n` of
`flagSteps`: line 85 followed by the statements before it. -/
def partsBefore (n : Nat) (ctr : Container) : List String :=
  runSteps (flagSteps.take n) ctr ["docker", "run"]

/-- The statement `step` is statement number `n` of `main`, and every token
sequence that `main` builds for `ctr` is the result of `step` on the tokens
of the statements before it, followed by the tokens of the statements after
it. -/
def StatementAt (n : Nat) (step : Container → List String → List String)
    (ctr : Container) : Prop :=
  flagSteps.get? n = some step ∧
    ∀ img : Image, ∃ post : List String, parts ctr img = step ctr (partsBefore n ctr) ++ post

/-! ## Records used to state the properties -/

/-- The host configuration in which every field holds its documented
default: network mode `"default"`, memory-swappiness `-1`, restart policy
`"no"`, shm-size `67108864`, log driver `"json-file"` without options, and
the Go zero value everywhere else. -/
def defaultHostConfig : HostConfig :=
  { NetworkMode := "default"
    MemorySwappiness := -1
    RestartPolicy := { Name := "no" }
    ShmSize := 67108864
    LogConfig := { Type_ := "json-file" } }

/-- The container-level fields outside `HostConfig` for which `main` emits
nothing: all three streams attached, no stdin-open and no TTY, and an empty
name, hostname, MAC address, entrypoint, working directory, label map, user
and stop signal.  The image reference and the command arguments are free. -/
def ConfigNeutral (ctr : Container) : Prop :=
  ctr.Config.AttachStdin = true ∧ ctr.Config.AttachStdout = true ∧
  ctr.Config.AttachStderr = true ∧ ctr.Config.OpenStdin = false ∧ ctr.Config.Tty = false ∧
  ctr.Name = "" ∧ ctr.Config.Hostname = "" ∧ ctr.Config.MacAddress = "" ∧
  ctr.Config.Entrypoint = [] ∧ ctr.Config.WorkingDir = "" ∧ ctr.Config.Labels = [] ∧
  ctr.Config.User = "" ∧ ctr.Config.StopSignal = ""

instance (ctr : Container) : Decidable (ConfigNeutral ctr) := by
  unfold ConfigNeutral
  infer_instance

/-- The colon-joined string of the non-empty strings among `fields`, in
their order: the wording of the specification for compound values. -/
def colonJoinPresent (fields : List String) : String :=
  ":".intercalate (fields.filter (fun f => f ≠ ""))

/-- A container whose host configuration is the default one and whose other
fields have their Go zero values, but for the image reference. -/
def zeroConfigContainer : Container :=
  { Config := { Image := "img" }, HostConfig := defaultHostConfig }

/-- A container with neutral fields that runs `echo hi`. -/
def echoContainer : Container :=
  { Config :=
      { AttachStdin := true, AttachStdout := true, AttachStderr := true,
        Image := "img", Cmd := ["echo", "hi"] }
    HostConfig := defaultHostConfig }

/-- An image whose default command is `bash`. -/
def bashImage : Image :=
  { Config := { Cmd := ["bash"] } }

/-- An image whose default command is `echo hi`. -/
def echoImage : Image :=
  { Config := { Cmd := ["echo", "hi"] } }

/-- A container that publishes port 80/tcp on 0.0.0.0:8080 and port 53/udp
without a host address or port. -/
def publishContainer : Container :=
  { HostConfig :=
      { defaultHostConfig with
        PortBindings :=
          [(⟨"80/tcp"⟩, [{ HostIP := "0.0.0.0", HostPort := "8080" }]), (⟨"53/udp"⟩, [{}])] } }

/-- A neutral container that runs `hi echo`, the arguments of `echoImage` in
the other order. -/
def reorderedContainer : Container :=
  { Config :=
      { AttachStdin := true, AttachStdout := true, AttachStderr := true,
        Image := "img", Cmd := ["hi", "echo"] }
    HostConfig := defaultHostConfig }

/-- A container with the given attach flags. -/
def attachContainer (stdin stdout stderr : Bool) : Container :=
  { Config := { AttachStdin := stdin, AttachStdout := stdout, AttachStderr := stderr } }

/-- A container all of whose byte-count fields are `n`. -/
def bytesContainer (n : Int) : Container :=
  { HostConfig :=
      { defaultHostConfig with
        Memory := n, MemoryReservation := n, MemorySwap := n, KernelMemory := n, ShmSize := n } }

end dclone

/-! ## Properties -/

namespace dclone

open docker

/-! ### Shared lemmas -/

/-- A loop that appends the tokens `f x` for each `x` appends their
concatenation. -/
theorem foldl_append_tokens {α : Type} (f : α → List String) (xs : List α)
    (parts : List String) :
    xs.foldl (fun parts x => parts ++ f x) parts = parts ++ xs.flatMap f := by
  induction xs generalizing parts with
  | nil => simp
  | cons x xs ih => simp [List.foldl_cons, ih, List.flatMap_cons, List.append_assoc]

/-- The inner loop of the command comparison decides membership. -/
theorem hasArg_eq_true_iff (p : String) (cs : List String) : hasArg p cs = true ↔ p ∈ cs := by
  induction cs with
  | nil => simp [hasArg]
  | cons c cs ih =>
    by_cases h : p = c
    · simp [hasArg, h]
    · simp [hasArg, h, ih]

/-- The outer loop finds a container argument that is no image argument. -/
theorem hasDiffArg_eq_true_iff (ps cs : List String) :
    hasDiffArg ps cs = true ↔ ∃ p ∈ ps, p ∉ cs := by
  induction ps with
  | nil => simp [hasDiffArg]
  | cons p ps ih =>
    by_cases h : p ∈ cs
    · have h1 : hasArg p cs = true := (hasArg_eq_true_iff p cs).2 h
      simp [hasDiffArg, h1, ih, h]
    · have h1 : hasArg p cs = false := by
        cases hb : hasArg p cs with
        | false => rfl
        | true => exact absurd ((hasArg_eq_true_iff p cs).1 hb) h
      simp [hasDiffArg, h1, h]

/-- A list has no argument that it lacks. -/
theorem hasDiffArg_self (c : List String) : hasDiffArg c c = false := by
  cases h : hasDiffArg c c with
  | false => rfl
  | true =>
    obtain ⟨p, hp, hnp⟩ := (hasDiffArg_eq_true_iff c c).1 h
    exact absurd hp hnp

/-- With the default host configuration and the neutral container fields no
flag is emitted. -/
theorem flagParts_default (ctr : Container) (hh : ctr.HostConfig = defaultHostConfig)
    (hc : ConfigNeutral ctr) : flagParts ctr = ["docker", "run"] := by
  obtain ⟨h1, h2, h3, h4, h5, h6, h7, h8, h9, h10, h11, h12, h13⟩ := hc
  simp [flagParts, appendAutoRemove, appendOpenStdin, appendTty, appendAttach, appendName,
    appendHostname, appendNetworkMode, appendMemory, appendMemoryReservation, appendMemorySwap,
    appendMemorySwappiness, appendKernelMemory, appendCPUPeriod, appendCPUQuota,
    appendCPUShares, appendCPUSetCPUs, appendCPUSetMEMs, appendPrivileged,
    appendPublishAllPorts, appendReadonlyRootfs, appendMacAddress, appendEntrypoint,
    appendWorkingDir, appendBinds, appendVolumeDriver, appendVolumesFrom, appendCapAdd,
    appendCapDrop, appendGroupAdd, appendLinks, appendDNS, appendDNSOptions, appendDNSSearch,
    appendContainerIDFile, appendBlkioWeight, appendLabels, appendBlkioWeightDevice,
    appendExtraHosts, appendCgroupParent, appendRestartPolicy, appendOOMKillDisable,
    appendOomScoreAdj, appendUlimits, appendTmpfs, appendUsernsMode, appendUTSMode, appendUser,
    appendPidMode, appendPidsLimit, appendIpcMode, appendStopSignal, appendStorageOpt,
    appendShmSize, appendSysctls, appendLogConfig, appendSecurityOpt, appendDevices,
    appendBlkioDeviceReadBps, appendBlkioDeviceWriteBps, appendBlkioDeviceReadIOps,
    appendBlkioDeviceWriteIOps, appendPortBindings, hh, defaultHostConfig,
    h1, h2, h3, h4, h5, h6, h7, h8, h9, h10, h11, h12, h13]

/-- The model of `strings.Join` agrees with the library intercalation. -/
theorem join_eq_intercalate (xs : List String) (sep : String) :
    strings.Join xs sep = sep.intercalate xs := by
  cases xs with
  | nil => rfl
  | cons a as =>
    simp only [strings.Join, String.intercalate]
    induction as generalizing a with
    | nil => rfl
    | cons b bs ih => simp only [List.foldl_cons, String.intercalate.go]; exact ih _

/-- Text without the separator is a single piece. -/
theorem splitChars_no_sep (c : Char) (q cur : List Char) (h : c ∉ q) :
    strings.splitChars c q cur = [cur.reverse ++ q] := by
  induction q generalizing cur with
  | nil => simp [strings.splitChars]
  | cons x xs ih =>
    have hx : x ≠ c := fun e => h (by simp [e])
    have hxs : c ∉ xs := fun e => h (by simp [e])
    simp [strings.splitChars, hx, ih _ hxs]

/-- The first piece ends at the first separator. -/
theorem splitChars_sep (c : Char) (p q cur : List Char) (h : c ∉ p) :
    strings.splitChars c (p ++ c :: q) cur = (cur.reverse ++ p) :: strings.splitChars c q [] := by
  induction p generalizing cur with
  | nil => simp [strings.splitChars]
  | cons x xs ih =>
    have hx : x ≠ c := fun e => h (by simp [e])
    have hxs : c ∉ xs := fun e => h (by simp [e])
    simp [strings.splitChars, hx, ih _ hxs]

/-- Splitting `p/proto` gives `p` and `proto` when neither holds a slash. -/
theorem splitSlash_pair (p proto : String) (hp : '/' ∉ p.data) (hq : '/' ∉ proto.data) :
    strings.SplitSlash (p ++ "/" ++ proto) = [p, proto] := by
  have e : (p ++ "/" ++ proto).data = p.data ++ '/' :: proto.data := by
    simp [String.data_append]
  simp [strings.SplitSlash, e, splitChars_sep _ _ _ _ hp, splitChars_no_sep _ _ _ hq]

/-- The published value in closed form. -/
theorem publishValue_eq (dp : Port) (pb : PortBinding) :
    publishValue dp pb =
      (if pb.HostIP ≠ "" then pb.HostIP ++ ":" else "")
        ++ (if pb.HostPort ≠ "" then pb.HostPort ++ ":" else "")
        ++ dp.Port ++ (if dp.Proto = "tcp" then "" else "/" ++ dp.Proto) := by
  have hd : ∀ a b : String, a ++ b = "" ↔ a = "" ∧ b = "" := by
    intro a b
    constructor
    · intro e
      have := congrArg String.data e
      simp only [String.data_append] at this
      simp at this
      exact ⟨String.ext this.1, String.ext this.2⟩
    · rintro ⟨rfl, rfl⟩; rfl
  by_cases h1 : pb.HostIP = "" <;> by_cases h2 : pb.HostPort = "" <;>
    by_cases h3 : dp.Proto = "tcp" <;>
    simp [publishValue, strings.Join, h1, h2, h3, hd, String.append_assoc]

/-- The two nested loops of lines 352-375 append one pair per binding. -/
theorem appendPortBindings_eq (ctr : Container) (parts : List String)
    (h : ctr.HostConfig.PublishAllPorts = false) :
    appendPortBindings ctr parts =
      parts ++ ctr.HostConfig.PortBindings.flatMap (fun entry =>
        entry.2.flatMap (fun pb => ["--publish", publishValue entry.1 pb])) := by
  simp only [appendPortBindings, h, foldl_append_tokens]
  by_cases hl : 0 < ctr.HostConfig.PortBindings.length
  · simp [hl]
  · have : ctr.HostConfig.PortBindings = [] := by
      cases hp : ctr.HostConfig.PortBindings with
      | nil => rfl
      | cons a as => simp [hp] at hl
    simp [this]

/-- A loop whose body only appends to `parts` only appends to `parts`. -/
theorem foldl_appendOnly {α : Type} (g : List String → α → List String)
    (h : ∀ p x, ∃ t, g p x = p ++ t) (xs : List α) (p : List String) :
    ∃ t, xs.foldl g p = p ++ t := by
  induction xs generalizing p with
  | nil => exact ⟨[], by simp⟩
  | cons x xs ih =>
    obtain ⟨t1, h1⟩ := h p x
    obtain ⟨t2, h2⟩ := ih (g p x)
    exact ⟨t1 ++ t2, by rw [List.foldl_cons, h2, h1, List.append_assoc]⟩

/-- A statement that only appends keeps what was there before it. -/
theorem appendOnly_step (f : List String → List String) (hf : ∀ p, ∃ t, f p = p ++ t)
    (base x : List String) (hx : ∃ t, x = base ++ t) : ∃ t, f x = base ++ t := by
  obtain ⟨t1, h1⟩ := hx
  obtain ⟨t2, h2⟩ := hf x
  exact ⟨t1 ++ t2, by rw [h2, h1, List.append_assoc]⟩

/-- No statement of lines 86-375 removes or changes a token: the tokens at
line 377 begin with the base tokens of line 85. -/
theorem flagParts_base (ctr : Container) : ∃ t, flagParts ctr = ["docker", "run"] ++ t := by
  simp only [flagParts]
  repeat
    refine appendOnly_step _ ?_ _ _ ?_
    · intro p
      simp only [appendAutoRemove, appendOpenStdin, appendTty, appendAttach, appendName,
    appendHostname, appendNetworkMode, appendMemory, appendMemoryReservation, appendMemorySwap,
    appendMemorySwappiness, appendKernelMemory, appendCPUPeriod, appendCPUQuota,
    appendCPUShares, appendCPUSetCPUs, appendCPUSetMEMs, appendPrivileged,
    appendPublishAllPorts, appendReadonlyRootfs, appendMacAddress, appendEntrypoint,
    appendWorkingDir, appendBinds, appendVolumeDriver, appendVolumesFrom, appendCapAdd,
    appendCapDrop, appendGroupAdd, appendLinks, appendDNS, appendDNSOptions, appendDNSSearch,
    appendContainerIDFile, appendBlkioWeight, appendLabels, appendBlkioWeightDevice,
    appendExtraHosts, appendCgroupParent, appendRestartPolicy, appendOOMKillDisable,
    appendOomScoreAdj, appendUlimits, appendTmpfs, appendUsernsMode, appendUTSMode, appendUser,
    appendPidMode, appendPidsLimit, appendIpcMode, appendStopSignal, appendStorageOpt,
    appendShmSize, appendSysctls, appendLogConfig, appendSecurityOpt, appendDevices,
    appendBlkioDeviceReadBps, appendBlkioDeviceWriteBps, appendBlkioDeviceReadIOps,
    appendBlkioDeviceWriteIOps, appendPortBindings]
      first
        | (split_ifs <;> simp [foldl_append_tokens])
        | simp [foldl_append_tokens]
        | exact foldl_appendOnly _ (fun q x => by split_ifs <;> simp) _ _
  exact ⟨[], rfl⟩

/-- A loop whose body appends `f x` for each entry `x` of the ranged list
appends the concatenation of these. -/
theorem foldl_tokens_congr {α : Type} (g : List String → α → List String)
    (f : α → List String) (xs : List α) (h : ∀ x ∈ xs, ∀ p, g p x = p ++ f x)
    (p : List String) : xs.foldl g p = p ++ xs.flatMap f := by
  induction xs generalizing p with
  | nil => simp
  | cons x xs ih =>
    rw [List.foldl_cons, h x (List.mem_cons_self x xs) p,
      ih (fun y hy => h y (List.mem_cons_of_mem x hy)), List.flatMap_cons, List.append_assoc]

/-- The model of `strings.HasPrefix` holds exactly when `s` is `p` followed by
some text. -/
theorem hasPrefix_iff (s p : String) : strings.HasPrefix s p = true ↔ ∃ t, s = p ++ t := by
  simp only [strings.HasPrefix, List.isPrefixOf_iff_prefix]
  constructor
  · rintro ⟨t, ht⟩
    exact ⟨String.mk t, String.ext (by simp [String.data_append, ht])⟩
  · rintro ⟨t, rfl⟩
    exact ⟨t.data, by simp [String.data_append]⟩

/-- The last element of a reversed path ends at the first slash. -/
theorem lastElemRev_append (b rest : List Char) (hb : '/' ∉ b) :
    path.lastElemRev (b ++ '/' :: rest) = b := by
  induction b with
  | nil => simp [path.lastElemRev]
  | cons c cs ih =>
    have hc : c ≠ '/' := fun e => hb (by simp [e])
    have hcs : '/' ∉ cs := fun e => hb (by simp [e])
    simp [path.lastElemRev, hc, ih hcs]

/-- The base of `pre/b` is `b` when `b` is non-empty and has no slash. -/
theorem base_of_slash (pre b : String) (hne : b ≠ "") (hs : '/' ∉ b.data) :
    path.Base (pre ++ "/" ++ b) = b := by
  have hd : (pre ++ "/" ++ b).data = pre.data ++ '/' :: b.data := by
    simp [String.data_append]
  have hne2 : pre ++ "/" ++ b ≠ "" := by
    intro e
    have := congrArg String.data e
    rw [hd] at this
    simp at this
  have hb : b.data ≠ [] := fun e => hne (String.ext e)
  have hrev : (pre.data ++ '/' :: b.data).reverse = b.data.reverse ++ '/' :: pre.data.reverse := by
    simp
  have hs2 : '/' ∉ b.data.reverse := by simpa using hs
  have hdrop : (b.data.reverse ++ '/' :: pre.data.reverse).dropWhile (fun c => decide (c = '/'))
      = b.data.reverse ++ '/' :: pre.data.reverse := by
    cases hr : b.data.reverse with
    | nil => simp at hr; exact absurd hr hb
    | cons c cs =>
      have hc : c ≠ '/' := by
        intro e
        apply hs2
        rw [hr, e]
        simp
      simp [List.dropWhile, hc]
  simp only [path.Base, hne2, if_false, hd, hrev, hdrop, lastElemRev_append _ _ hs2,
    List.reverse_reverse, hb]

/-- The body of `flagParts` is the statements of `flagSteps` run in order from
the base tokens. -/
theorem flagParts_eq_runSteps (ctr : Container) :
    flagParts ctr = runSteps flagSteps ctr ["docker", "run"] := rfl

/-- Each statement of `flagSteps` only appends to `parts`. -/
theorem flagSteps_appendOnly (ctr : Container) :
    ∀ step ∈ flagSteps, ∀ p, ∃ t, step ctr p = p ++ t := by
  simp only [flagSteps, List.forall_mem_cons]
  refine ⟨?_, ?_, ?_, ?_, ?_, ?_, ?_, ?_, ?_, ?_, ?_, ?_, ?_, ?_, ?_, ?_, ?_, ?_, ?_, ?_, ?_, ?_,
    ?_, ?_, ?_, ?_, ?_, ?_, ?_, ?_, ?_, ?_, ?_, ?_, ?_, ?_, ?_, ?_, ?_, ?_, ?_, ?_, ?_, ?_, ?_,
    ?_, ?_, ?_, ?_, ?_, ?_, ?_, ?_, ?_, ?_, ?_, ?_, ?_, ?_, ?_, ?_, ?_, ?_⟩
  all_goals first
    | (intro p
       simp only [appendAutoRemove, appendOpenStdin, appendTty, appendAttach, appendName,
         appendHostname, appendNetworkMode, appendMemory, appendMemoryReservation,
         appendMemorySwap, appendMemorySwappiness, appendKernelMemory, appendCPUPeriod,
         appendCPUQuota, appendCPUShares, appendCPUSetCPUs, appendCPUSetMEMs, appendPrivileged,
         appendPublishAllPorts, appendReadonlyRootfs, appendMacAddress, appendEntrypoint,
         appendWorkingDir, appendBinds, appendVolumeDriver, appendVolumesFrom, appendCapAdd,
         appendCapDrop, appendGroupAdd, appendLinks, appendDNS, appendDNSOptions,
         appendDNSSearch, appendContainerIDFile, appendBlkioWeight, appendLabels,
         appendBlkioWeightDevice, appendExtraHosts, appendCgroupParent, appendRestartPolicy,
         appendOOMKillDisable, appendOomScoreAdj, appendUlimits, appendTmpfs, appendUsernsMode,
         appendUTSMode, appendUser, appendPidMode, appendPidsLimit, appendIpcMode,
         appendStopSignal, appendStorageOpt, appendShmSize, appendSysctls, appendLogConfig,
         appendSecurityOpt, appendDevices, appendBlkioDeviceReadBps, appendBlkioDeviceWriteBps,
         appendBlkioDeviceReadIOps, appendBlkioDeviceWriteIOps, appendPortBindings]
       first
         | (split_ifs <;> simp [foldl_append_tokens])
         | simp [foldl_append_tokens]
         | exact foldl_appendOnly _ (fun q x => by split_ifs <;> simp) _ _)
    | simp

/-- Statements that only append, run in sequence, only append. -/
theorem runSteps_appendOnly (ctr : Container)
    (steps : List (Container → List String → List String))
    (h : ∀ step ∈ steps, ∀ p, ∃ t, step ctr p = p ++ t) (init : List String) :
    ∃ t, runSteps steps ctr init = init ++ t := by
  induction steps generalizing init with
  | nil => exact ⟨[], by simp [runSteps]⟩
  | cons s ss ih =>
    obtain ⟨t1, h1⟩ := h s (List.mem_cons_self s ss) init
    obtain ⟨t2, h2⟩ := ih (fun x hx => h x (List.mem_cons_of_mem s hx)) (s ctr init)
    refine ⟨t1 ++ t2, ?_⟩
    have e : runSteps (s :: ss) ctr init = runSteps ss ctr (s ctr init) := rfl
    rw [e, h2, h1, List.append_assoc]

/-- Each statement of `flagSteps` acts on the tokens of the statements before
it, and its result is kept at the head of the final token sequence.  The
equation `hf` says that the body of `flagParts` is the statements of
`flagSteps` in order; it holds by unfolding. -/
theorem statementAt_of_get (ctr : Container) (n : Nat)
    (step : Container → List String → List String)
    (hf : flagParts ctr = runSteps flagSteps ctr ["docker", "run"])
    (h : flagSteps.get? n = some step) : StatementAt n step ctr := by
  refine ⟨h, fun img => ?_⟩
  obtain ⟨hn, hget⟩ := List.get?_eq_some.1 h
  have hsplit : flagSteps = flagSteps.take n ++ step :: flagSteps.drop (n + 1) := by
    have h1 := (List.take_append_drop n flagSteps).symm
    have h2 : flagSteps.drop n = flagSteps.get ⟨n, hn⟩ :: flagSteps.drop (n + 1) :=
      List.drop_eq_getElem_cons hn
    rw [h2, hget] at h1
    exact h1
  have hrun : flagParts ctr =
      runSteps (flagSteps.drop (n + 1)) ctr (step ctr (partsBefore n ctr)) := by
    rw [hf]
    conv_lhs => rw [hsplit]
    simp only [runSteps, partsBefore, List.foldl_append, List.foldl_cons]
  obtain ⟨t, ht⟩ := runSteps_appendOnly ctr (flagSteps.drop (n + 1))
    (fun s hs => flagSteps_appendOnly ctr s (List.mem_of_mem_drop hs))
    (step ctr (partsBefore n ctr))
  refine ⟨t ++ (if ctr.Config.Image ≠ "" then [ctr.Config.Image] else [])
    ++ (if hasDiffArg ctr.Config.Cmd img.Config.Cmd then ctr.Config.Cmd else []), ?_⟩
  simp only [parts, hrun, ht, appendImage, appendCmd]
  by_cases hi : ctr.Config.Image = "" <;>
    by_cases hd : hasDiffArg ctr.Config.Cmd img.Config.Cmd = true <;> simp [hi, hd]

/-! ### C1: the default record -/

/-- C1 (counterexample): a container whose HostConfig fields all hold their
documented defaults, with image reference `img` and no attached stream,
yields `docker run --detach img`; the token sequence is not
`["docker", "run", "img"]` followed by command arguments. -/
theorem default_hostconfig_not_bare :
    zeroConfigContainer.HostConfig = defaultHostConfig ∧
    parts zeroConfigContainer {} = ["docker", "run", "--detach", "img"] ∧
    ¬ ∃ cmd, parts zeroConfigContainer {} =
      ["docker", "run", zeroConfigContainer.Config.Image] ++ cmd := by
  refine ⟨rfl, by decide, ?_⟩
  rintro ⟨cmd, h⟩
  have e : parts zeroConfigContainer {} = ["docker", "run", "--detach", "img"] := by decide
  rw [e] at h
  simp [zeroConfigContainer] at h

/-- C1 (amended): when every HostConfig field holds its documented default
and the remaining container fields are neutral (all three streams attached,
no stdin-open, no TTY, empty name, hostname, MAC address, entrypoint, working
directory, labels, user and stop signal), the token sequence is
`["docker", "run"]`, then the image reference if it is non-empty, then the
container's command arguments or nothing; command arguments follow only if
the container's list differs from the image's. -/
theorem default_record_tokens (ctr : Container) (img : Image)
    (hh : ctr.HostConfig = defaultHostConfig) (hc : ConfigNeutral ctr) :
    parts ctr img =
        ["docker", "run"] ++ (if ctr.Config.Image ≠ "" then [ctr.Config.Image] else [])
          ++ (if hasDiffArg ctr.Config.Cmd img.Config.Cmd then ctr.Config.Cmd else []) ∧
      (hasDiffArg ctr.Config.Cmd img.Config.Cmd = true → ctr.Config.Cmd ≠ img.Config.Cmd) := by
  constructor
  · simp only [parts, flagParts_default ctr hh hc, appendImage, appendCmd]
    by_cases hi : ctr.Config.Image = "" <;>
      by_cases hd : hasDiffArg ctr.Config.Cmd img.Config.Cmd = true <;> simp [hi, hd]
  · intro hd he
    rw [he, hasDiffArg_self] at hd
    exact Bool.false_ne_true hd

/-- C1 (witness): the neutral container running `echo hi` from an image
whose default command is `bash`. -/
theorem default_record_tokens_witness :
    echoContainer.HostConfig = defaultHostConfig ∧ ConfigNeutral echoContainer ∧
    parts echoContainer bashImage = ["docker", "run", "img", "echo", "hi"] := by
  have h := default_record_tokens echoContainer bashImage rfl (by decide)
  refine ⟨rfl, by decide, ?_⟩
  rw [h.1]
  decide

/-! ### C2, C3: byte-count fields -/

/-- C2 (counterexample): with each byte-count field at 134217728 the value
token is `134.2MB`, the rendering of `units.HumanSize` in decimal units, and
not `128MiB`. -/
theorem byte_fields_not_mebibytes :
    units.HumanSize 134217728 = "134.2MB" ∧ units.HumanSize 134217728 ≠ "128MiB" ∧
    parts (bytesContainer 134217728) {} =
      ["docker", "run", "--detach", "--memory", "134.2MB", "--memory-reservation", "134.2MB",
       "--memory-swap", "134.2MB", "--kernel-memory", "134.2MB", "--shm-size", "134.2MB"] ∧
    ¬ ["--memory", "128MiB"] <:+: parts (bytesContainer 134217728) {} := by
  refine ⟨by decide, by decide, by decide, ?_⟩
  have e : parts (bytesContainer 134217728) {} =
      ["docker", "run", "--detach", "--memory", "134.2MB", "--memory-reservation", "134.2MB",
       "--memory-swap", "134.2MB", "--kernel-memory", "134.2MB", "--shm-size", "134.2MB"] := by
    decide
  rw [e]
  decide

/-- C2 (amended): for each byte-count field (memory, memory-reservation,
memory-swap, kernel-memory, shm-size), an input value of 134217728 is emitted
as the flag followed by the value token `134.2MB`: the value is rendered by
`units.HumanSize`, in decimal (base 1000) units with four significant
digits.  Each of the five statements is a statement of `main`, run on the
tokens of the statements before it, and its result heads the final token
sequence. -/
theorem byte_fields_human_size (ctr : Container) (parts : List String) :
    (ctr.HostConfig.Memory = 134217728 →
      appendMemory ctr parts = parts ++ ["--memory", "134.2MB"]) ∧
    (ctr.HostConfig.MemoryReservation = 134217728 →
      appendMemoryReservation ctr parts = parts ++ ["--memory-reservation", "134.2MB"]) ∧
    (ctr.HostConfig.MemorySwap = 134217728 →
      appendMemorySwap ctr parts = parts ++ ["--memory-swap", "134.2MB"]) ∧
    (ctr.HostConfig.KernelMemory = 134217728 →
      appendKernelMemory ctr parts = parts ++ ["--kernel-memory", "134.2MB"]) ∧
    (ctr.HostConfig.ShmSize = 134217728 →
      appendShmSize ctr parts = parts ++ ["--shm-size", "134.2MB"]) ∧
    StatementAt 7 appendMemory ctr ∧ StatementAt 8 appendMemoryReservation ctr ∧
    StatementAt 9 appendMemorySwap ctr ∧ StatementAt 11 appendKernelMemory ctr ∧
    StatementAt 52 appendShmSize ctr := by
  have e : units.HumanSize 134217728 = "134.2MB" := by decide
  have hs : ∀ n step, flagSteps.get? n = some step → StatementAt n step ctr :=
    fun n step h => statementAt_of_get ctr n step rfl h
  refine ⟨?_, ?_, ?_, ?_, ?_, hs _ _ rfl, hs _ _ rfl, hs _ _ rfl, hs _ _ rfl, hs _ _ rfl⟩ <;>
    intro h
  · simp [appendMemory, h, e]
  · simp [appendMemoryReservation, h, e]
  · simp [appendMemorySwap, h, e]
  · simp [appendKernelMemory, h, e]
  · simp [appendShmSize, h, e]

/-- C2 (witness): a container whose byte-count fields are all 134217728:
the statements for memory and shm-size, and the token sequence that `main`
builds up to each of them. -/
theorem byte_fields_human_size_witness :
    appendMemory (bytesContainer 134217728) ["docker", "run"] =
      ["docker", "run", "--memory", "134.2MB"] ∧
    appendShmSize (bytesContainer 134217728) ["docker", "run"] =
      ["docker", "run", "--shm-size", "134.2MB"] ∧
    (∃ post, parts (bytesContainer 134217728) {} =
      ["docker", "run", "--detach", "--memory", "134.2MB"] ++ post) ∧
    (∃ post, parts (bytesContainer 134217728) {} =
      ["docker", "run", "--detach", "--memory", "134.2MB", "--memory-reservation", "134.2MB",
       "--memory-swap", "134.2MB", "--kernel-memory", "134.2MB", "--shm-size", "134.2MB"]
        ++ post) ∧
    parts (bytesContainer 134217728) {} =
      ["docker", "run", "--detach", "--memory", "134.2MB", "--memory-reservation", "134.2MB",
       "--memory-swap", "134.2MB", "--kernel-memory", "134.2MB", "--shm-size", "134.2MB"] := by
  have h := byte_fields_human_size (bytesContainer 134217728) ["docker", "run"]
  refine ⟨h.1 rfl, h.2.2.2.2.1 rfl, ?_, ?_⟩
  · obtain ⟨post, hp⟩ := h.2.2.2.2.2.1.2 {}
    refine ⟨post, ?_⟩
    rw [hp]
    congr 1
  · refine ⟨?_, by decide⟩
    obtain ⟨post, hp⟩ := h.2.2.2.2.2.2.2.2.2.2 {}
    refine ⟨post, ?_⟩
    rw [hp]
    congr 1

/-- C3 (counterexample): with shm-size 0 the flag `--shm-size` is emitted,
with the value `0B`. -/
theorem shm_size_zero_emitted :
    (bytesContainer 0).HostConfig.ShmSize = 0 ∧
    appendShmSize (bytesContainer 0) [] = ["--shm-size", "0B"] ∧
    parts (bytesContainer 0) {} = ["docker", "run", "--detach", "--shm-size", "0B"] := by
  refine ⟨rfl, by decide, by decide⟩

/-- C3 (amended): for memory, memory-reservation, memory-swap and
kernel-memory, a field that is 0 leaves the token sequence unchanged, so its
flag is omitted; for shm-size the flag is omitted exactly when the field is
67108864. -/
theorem byte_fields_omitted (ctr : Container) (parts : List String) :
    (ctr.HostConfig.Memory = 0 → appendMemory ctr parts = parts) ∧
    (ctr.HostConfig.MemoryReservation = 0 → appendMemoryReservation ctr parts = parts) ∧
    (ctr.HostConfig.MemorySwap = 0 → appendMemorySwap ctr parts = parts) ∧
    (ctr.HostConfig.KernelMemory = 0 → appendKernelMemory ctr parts = parts) ∧
    (appendShmSize ctr parts = parts ↔ ctr.HostConfig.ShmSize = 67108864) := by
  refine ⟨?_, ?_, ?_, ?_, ?_⟩
  · intro h; simp [appendMemory, h]
  · intro h; simp [appendMemoryReservation, h]
  · intro h; simp [appendMemorySwap, h]
  · intro h; simp [appendKernelMemory, h]
  · by_cases h : ctr.HostConfig.ShmSize = 67108864 <;> simp [appendShmSize, h]

/-- C3 (witness): the default host configuration, whose four memory fields
are 0 and whose shm-size is 67108864. -/
theorem byte_fields_omitted_witness :
    appendMemory zeroConfigContainer ["docker", "run"] = ["docker", "run"] ∧
    appendKernelMemory zeroConfigContainer ["docker", "run"] = ["docker", "run"] ∧
    appendShmSize zeroConfigContainer ["docker", "run"] = ["docker", "run"] :=
  ⟨(byte_fields_omitted zeroConfigContainer ["docker", "run"]).1 rfl,
   (byte_fields_omitted zeroConfigContainer ["docker", "run"]).2.2.2.1 rfl,
   (byte_fields_omitted zeroConfigContainer ["docker", "run"]).2.2.2.2.2 rfl⟩

/-! ### C4: memory-swappiness -/

/-- C4: the pair `--memory-swappiness v` is appended if and only if
memory-swappiness is not -1, with `v` the decimal rendering of the value; -1
appends nothing and 0 appends the value `0`.  The statement is a statement of
`main`, run on the tokens of the statements before it, and its result heads
the final token sequence. -/
theorem memory_swappiness_pair (ctr : Container) (parts : List String) :
    (ctr.HostConfig.MemorySwappiness = -1 → appendMemorySwappiness ctr parts = parts) ∧
    (ctr.HostConfig.MemorySwappiness ≠ -1 →
      appendMemorySwappiness ctr parts =
        parts ++ ["--memory-swappiness", strconv.FormatInt ctr.HostConfig.MemorySwappiness]) ∧
    (ctr.HostConfig.MemorySwappiness = 0 →
      appendMemorySwappiness ctr parts = parts ++ ["--memory-swappiness", "0"]) ∧
    (appendMemorySwappiness ctr parts ≠ parts ↔ ctr.HostConfig.MemorySwappiness ≠ -1) ∧
    StatementAt 10 appendMemorySwappiness ctr := by
  refine ⟨?_, ?_, ?_, ?_, statementAt_of_get ctr _ _ rfl rfl⟩
  · intro h; simp [appendMemorySwappiness, h]
  · intro h; simp [appendMemorySwappiness, h]
  · intro h
    have e : strconv.FormatInt 0 = "0" := by decide
    simp [appendMemorySwappiness, h, e]
  · by_cases h : ctr.HostConfig.MemorySwappiness = -1 <;> simp [appendMemorySwappiness, h]

/-- C4 (witness): swappiness -1 (the default host configuration), 0 and 60,
and the token sequence that `main` builds for swappiness 0. -/
theorem memory_swappiness_pair_witness :
    appendMemorySwappiness zeroConfigContainer ["docker", "run"] = ["docker", "run"] ∧
    appendMemorySwappiness { HostConfig := { MemorySwappiness := 0 } } ["docker", "run"] =
      ["docker", "run", "--memory-swappiness", "0"] ∧
    appendMemorySwappiness { HostConfig := { MemorySwappiness := 60 } } ["docker", "run"] =
      ["docker", "run", "--memory-swappiness", "60"] ∧
    (∃ post, parts { HostConfig := { defaultHostConfig with MemorySwappiness := 0 } } {} =
      ["docker", "run", "--detach", "--memory-swappiness", "0"] ++ post) ∧
    parts { HostConfig := { defaultHostConfig with MemorySwappiness := 0 } } {} =
      ["docker", "run", "--detach", "--memory-swappiness", "0"] := by
  refine ⟨(memory_swappiness_pair zeroConfigContainer ["docker", "run"]).1 rfl,
    (memory_swappiness_pair { HostConfig := { MemorySwappiness := 0 } }
      ["docker", "run"]).2.2.1 rfl, ?_, ?_⟩
  · rw [(memory_swappiness_pair { HostConfig := { MemorySwappiness := 60 } }
      ["docker", "run"]).2.1 (by decide)]
    decide
  · refine ⟨?_, by decide⟩
    obtain ⟨post, hp⟩ := (memory_swappiness_pair
      { HostConfig := { defaultHostConfig with MemorySwappiness := 0 } }
      ["docker", "run"]).2.2.2.2.2 {}
    refine ⟨post, ?_⟩
    rw [hp]
    congr 1

/-! ### C5: restart policy -/

/-- C5: the name `no` appends nothing; the name `on-failure` with retry
count `n` appends `--restart on-failure:n`; every other name `s` appends
`--restart s`, without a retry suffix.  The statement is a statement of
`main`, run on the tokens of the statements before it, and its result heads
the final token sequence. -/
theorem restart_policy_pair (ctr : Container) (parts : List String) :
    (ctr.HostConfig.RestartPolicy.Name = "no" → appendRestartPolicy ctr parts = parts) ∧
    (ctr.HostConfig.RestartPolicy.Name = "on-failure" →
      appendRestartPolicy ctr parts =
        parts ++ ["--restart",
          "on-failure:" ++ strconv.Itoa ctr.HostConfig.RestartPolicy.MaximumRetryCount]) ∧
    (ctr.HostConfig.RestartPolicy.Name ≠ "no" →
      ctr.HostConfig.RestartPolicy.Name ≠ "on-failure" →
      appendRestartPolicy ctr parts = parts ++ ["--restart", ctr.HostConfig.RestartPolicy.Name]) ∧
    StatementAt 39 appendRestartPolicy ctr := by
  refine ⟨?_, ?_, ?_, statementAt_of_get ctr _ _ rfl rfl⟩
  · intro h; simp [appendRestartPolicy, h]
  · intro h
    have hne : ("on-failure" : String) ≠ "no" := by decide
    have e : ("on-failure" : String) ++ ":" = "on-failure:" := by decide
    simp only [appendRestartPolicy, h, hne, ne_eq, not_false_eq_true, if_true]
    rw [← String.append_assoc, e]
  · intro h1 h2; simp [appendRestartPolicy, h1, h2]

/-- C5 (witness): `no`, `on-failure` with five retries, and `always`, and
the token sequence that `main` builds for `on-failure` with five retries. -/
theorem restart_policy_pair_witness :
    appendRestartPolicy zeroConfigContainer ["docker", "run"] = ["docker", "run"] ∧
    appendRestartPolicy
        { HostConfig := { RestartPolicy := { Name := "on-failure", MaximumRetryCount := 5 } } }
        ["docker", "run"] = ["docker", "run", "--restart", "on-failure:5"] ∧
    appendRestartPolicy { HostConfig := { RestartPolicy := { Name := "always" } } }
        ["docker", "run"] = ["docker", "run", "--restart", "always"] ∧
    (∃ post,
      parts
          { HostConfig :=
              { defaultHostConfig with
                RestartPolicy := { Name := "on-failure", MaximumRetryCount := 5 } } } {} =
        ["docker", "run", "--detach", "--restart", "on-failure:5"] ++ post) ∧
    parts
        { HostConfig :=
            { defaultHostConfig with
              RestartPolicy := { Name := "on-failure", MaximumRetryCount := 5 } } } {} =
      ["docker", "run", "--detach", "--restart", "on-failure:5"] := by
  refine ⟨(restart_policy_pair zeroConfigContainer ["docker", "run"]).1 rfl, ?_,
    (restart_policy_pair { HostConfig := { RestartPolicy := { Name := "always" } } }
      ["docker", "run"]).2.2.1 (by decide) (by decide), ?_⟩
  · rw [(restart_policy_pair
      { HostConfig := { RestartPolicy := { Name := "on-failure", MaximumRetryCount := 5 } } }
      ["docker", "run"]).2.1 rfl]
    decide
  · refine ⟨?_, by decide⟩
    obtain ⟨post, hp⟩ := (restart_policy_pair
      { HostConfig :=
          { defaultHostConfig with
            RestartPolicy := { Name := "on-failure", MaximumRetryCount := 5 } } }
      ["docker", "run"]).2.2.2.2 {}
    refine ⟨post, ?_⟩
    rw [hp]
    congr 1

/-! ### C6: port bindings -/

/-- C6: when publish-all is not set, every binding of every container port
appends exactly one pair `--publish v`, in map and list order, where `v` is
the host IP and the host port, each followed by a colon and each present
only when non-empty, then the port, then `/proto` unless the protocol is
`tcp`; and a port key `p/proto` without further slashes has port `p` and
protocol `proto`.  The loops are the last flag statement of `main`, run on
the tokens of the statements before them, and their result heads the final
token sequence. -/
theorem publish_pairs (ctr : Container) (parts : List String)
    (h : ctr.HostConfig.PublishAllPorts = false) :
    appendPortBindings ctr parts =
        parts ++ ctr.HostConfig.PortBindings.flatMap (fun entry =>
          entry.2.flatMap (fun pb =>
            ["--publish",
              (if pb.HostIP ≠ "" then pb.HostIP ++ ":" else "")
                ++ (if pb.HostPort ≠ "" then pb.HostPort ++ ":" else "")
                ++ entry.1.Port
                ++ (if entry.1.Proto = "tcp" then "" else "/" ++ entry.1.Proto)])) ∧
      (∀ p proto : String, '/' ∉ p.data → '/' ∉ proto.data →
        (Port.mk (p ++ "/" ++ proto)).Port = p ∧
          (Port.mk (p ++ "/" ++ proto)).Proto = proto) ∧
      StatementAt 61 appendPortBindings ctr := by
  refine ⟨?_, ?_, statementAt_of_get ctr _ _ rfl rfl⟩
  · rw [appendPortBindings_eq ctr parts h]
    simp only [publishValue_eq]
  · intro p proto hp hq
    simp [Port.Port, Port.Proto, splitSlash_pair p proto hp hq]

/-- C6 (witness): 80/tcp bound to 0.0.0.0:8080 gives `0.0.0.0:8080:80`, and
53/udp with an empty binding gives `53/udp`; the token sequence that `main`
builds for this container holds both pairs. -/
theorem publish_pairs_witness :
    publishContainer.HostConfig.PublishAllPorts = false ∧
    appendPortBindings publishContainer ["docker", "run"] =
      ["docker", "run", "--publish", "0.0.0.0:8080:80", "--publish", "53/udp"] ∧
    (Port.mk ("53" ++ "/" ++ "udp")).Port = "53" ∧
    (Port.mk ("53" ++ "/" ++ "udp")).Proto = "udp" ∧
    (∃ post, parts publishContainer {} =
      ["docker", "run", "--detach", "--publish", "0.0.0.0:8080:80", "--publish", "53/udp"]
        ++ post) ∧
    parts publishContainer {} =
      ["docker", "run", "--detach", "--publish", "0.0.0.0:8080:80", "--publish", "53/udp"] := by
  have h := publish_pairs publishContainer ["docker", "run"] rfl
  have hp := h.2.1 "53" "udp" (by decide) (by decide)
  refine ⟨rfl, ?_, hp.1, hp.2, ?_⟩
  · rw [h.1]
    decide
  · refine ⟨?_, by decide⟩
    obtain ⟨post, hpost⟩ := h.2.2.2 {}
    refine ⟨post, ?_⟩
    rw [hpost]
    congr 1

/-! ### C7: attach flags -/

/-- C7: with all three streams attached the attach rule appends nothing;
with none attached it appends exactly `--detach`; otherwise it appends one
pair `--attach s` for each attached stream, in the order stdin, stdout,
stderr, and no `--detach`.  The statement is a statement of
`main`, run on the tokens of the statements before it, and its result heads
the final token sequence. -/
theorem attach_rule (ctr : Container) (parts : List String) :
    (ctr.Config.AttachStdin = true → ctr.Config.AttachStdout = true →
      ctr.Config.AttachStderr = true → appendAttach ctr parts = parts) ∧
    (ctr.Config.AttachStdin = false → ctr.Config.AttachStdout = false →
      ctr.Config.AttachStderr = false → appendAttach ctr parts = parts ++ ["--detach"]) ∧
    (¬ (ctr.Config.AttachStdin = true ∧ ctr.Config.AttachStdout = true ∧
          ctr.Config.AttachStderr = true) →
      ¬ (ctr.Config.AttachStdin = false ∧ ctr.Config.AttachStdout = false ∧
          ctr.Config.AttachStderr = false) →
      appendAttach ctr parts =
          parts ++ ((if ctr.Config.AttachStdin then ["--attach", "stdin"] else [])
            ++ (if ctr.Config.AttachStdout then ["--attach", "stdout"] else [])
            ++ (if ctr.Config.AttachStderr then ["--attach", "stderr"] else [])) ∧
        "--detach" ∉
          ((if ctr.Config.AttachStdin then ["--attach", "stdin"] else [])
            ++ (if ctr.Config.AttachStdout then ["--attach", "stdout"] else [])
            ++ (if ctr.Config.AttachStderr then ["--attach", "stderr"] else []))) ∧
    StatementAt 3 appendAttach ctr := by
  have hs : StatementAt 3 appendAttach ctr := statementAt_of_get ctr _ _ rfl rfl
  cases h1 : ctr.Config.AttachStdin <;> cases h2 : ctr.Config.AttachStdout <;>
    cases h3 : ctr.Config.AttachStderr <;> simp [appendAttach, h1, h2, h3, hs]

/-- C7 (witness): all attached, none attached, and stdin only, and the
token sequence that `main` builds for stdin only. -/
theorem attach_rule_witness :
    appendAttach (attachContainer true true true) ["docker", "run"] = ["docker", "run"] ∧
    appendAttach (attachContainer false false false) ["docker", "run"] =
      ["docker", "run", "--detach"] ∧
    appendAttach (attachContainer true false false) ["docker", "run"] =
      ["docker", "run", "--attach", "stdin"] ∧
    (∃ post,
      parts { attachContainer true false false with HostConfig := defaultHostConfig } {} =
        ["docker", "run", "--attach", "stdin"] ++ post) ∧
    parts { attachContainer true false false with HostConfig := defaultHostConfig } {} =
      ["docker", "run", "--attach", "stdin"] := by
  refine ⟨(attach_rule (attachContainer true true true) ["docker", "run"]).1 rfl rfl rfl,
    (attach_rule (attachContainer false false false) ["docker", "run"]).2.1 rfl rfl rfl, ?_, ?_⟩
  · rw [((attach_rule (attachContainer true false false) ["docker", "run"]).2.2.1
      (by decide) (by decide)).1]
    decide
  · refine ⟨?_, by decide⟩
    obtain ⟨post, hp⟩ :=
      (attach_rule { attachContainer true false false with HostConfig := defaultHostConfig }
        ["docker", "run"]).2.2.2.2 {}
    refine ⟨post, ?_⟩
    rw [hp]
    congr 1

/-! ### C8: entrypoint -/

/-- C8: a non-empty entrypoint list appends the flag `--entrypoint` and one
value token, the elements joined with single spaces and enclosed in single
quotes; an empty entrypoint list appends nothing.  The statement is a statement of
`main`, run on the tokens of the statements before it, and its result heads
the final token sequence. -/
theorem entrypoint_pair (ctr : Container) (parts : List String) :
    (ctr.Config.Entrypoint ≠ [] →
      appendEntrypoint ctr parts =
        parts ++ ["--entrypoint", "'" ++ " ".intercalate ctr.Config.Entrypoint ++ "'"]) ∧
    (ctr.Config.Entrypoint = [] → appendEntrypoint ctr parts = parts) ∧
    StatementAt 21 appendEntrypoint ctr := by
  refine ⟨?_, ?_, statementAt_of_get ctr _ _ rfl rfl⟩
  · intro h
    have hl : 0 < ctr.Config.Entrypoint.length := List.length_pos.2 h
    simp [appendEntrypoint, hl, join_eq_intercalate]
  · intro h
    simp [appendEntrypoint, h]

/-- C8 (witness): the entrypoint `sh -c`, the empty entrypoint, and the
token sequence that `main` builds for the entrypoint `sh -c`. -/
theorem entrypoint_pair_witness :
    appendEntrypoint { Config := { Entrypoint := ["sh", "-c"] } } ["docker", "run"] =
      ["docker", "run", "--entrypoint", "'sh -c'"] ∧
    appendEntrypoint {} ["docker", "run"] = ["docker", "run"] ∧
    (∃ post,
      parts { Config := { Entrypoint := ["sh", "-c"] }, HostConfig := defaultHostConfig } {} =
        ["docker", "run", "--detach", "--entrypoint", "'sh -c'"] ++ post) ∧
    parts { Config := { Entrypoint := ["sh", "-c"] }, HostConfig := defaultHostConfig } {} =
      ["docker", "run", "--detach", "--entrypoint", "'sh -c'"] := by
  refine ⟨?_, (entrypoint_pair {} ["docker", "run"]).2.1 rfl, ?_⟩
  · rw [(entrypoint_pair { Config := { Entrypoint := ["sh", "-c"] } } ["docker", "run"]).1
      (by decide)]
    decide
  · refine ⟨?_, by decide⟩
    obtain ⟨post, hp⟩ :=
      (entrypoint_pair { Config := { Entrypoint := ["sh", "-c"] }, HostConfig := defaultHostConfig }
        ["docker", "run"]).2.2.2 {}
    refine ⟨post, ?_⟩
    rw [hp]
    congr 1

/-! ### C9, C10: command arguments -/

/-- C9: when the container's and the image's command-argument lists are
both equal to `c`, no command token is appended: the token sequence is the
flags followed by the image reference, and it ends with the image reference
when that is non-empty. -/
theorem equal_cmd_appends_nothing (ctr : Container) (img : Image) (c : List String)
    (hc : ctr.Config.Cmd = c) (hi : img.Config.Cmd = c) :
    parts ctr img = appendImage ctr (flagParts ctr) ∧
      (ctr.Config.Image ≠ "" →
        parts ctr img = flagParts ctr ++ [ctr.Config.Image] ∧
          (parts ctr img).getLast? = some ctr.Config.Image) := by
  have e : parts ctr img = appendImage ctr (flagParts ctr) := by
    simp only [parts, appendCmd, hc, hi, hasDiffArg_self]
    simp
  refine ⟨e, ?_⟩
  intro hne
  have e2 : parts ctr img = flagParts ctr ++ [ctr.Config.Image] := by
    rw [e]; simp [appendImage, hne]
  exact ⟨e2, by rw [e2, List.getLast?_concat]⟩

/-- C9 (witness): container and image both have the command `echo hi`. -/
theorem equal_cmd_appends_nothing_witness :
    echoContainer.Config.Cmd = ["echo", "hi"] ∧ echoImage.Config.Cmd = ["echo", "hi"] ∧
    parts echoContainer echoImage = ["docker", "run", "img"] ∧
    (parts echoContainer echoImage).getLast? = some "img" := by
  have h := equal_cmd_appends_nothing echoContainer echoImage ["echo", "hi"] rfl rfl
  refine ⟨rfl, rfl, ?_, ?_⟩
  · rw [h.1]; decide
  · exact (h.2 (by decide)).2

/-- C10 (counterexample): the container command `hi echo` differs from the
image command `echo hi` at position 0 (and at position 1), yet no command
token is appended: the token sequence is `docker run img`. -/
theorem reordered_cmd_not_appended :
    reorderedContainer.Config.Cmd.get? 0 ≠ echoImage.Config.Cmd.get? 0 ∧
    parts reorderedContainer echoImage = ["docker", "run", "img"] ∧
    parts reorderedContainer echoImage ≠
      flagParts reorderedContainer ++ [reorderedContainer.Config.Image]
        ++ reorderedContainer.Config.Cmd := by
  refine ⟨by decide, by decide, by decide⟩

/-- C10 (amended): the comparison is by membership, not by position: when
some container command argument occurs nowhere in the image's list, the whole
container command-argument list is appended verbatim after the image
reference. -/
theorem missing_arg_appends_cmd (ctr : Container) (img : Image)
    (h : ∃ p ∈ ctr.Config.Cmd, p ∉ img.Config.Cmd) :
    parts ctr img =
      flagParts ctr ++ (if ctr.Config.Image ≠ "" then [ctr.Config.Image] else [])
        ++ ctr.Config.Cmd := by
  have hd : hasDiffArg ctr.Config.Cmd img.Config.Cmd = true :=
    (hasDiffArg_eq_true_iff _ _).2 h
  by_cases hi : ctr.Config.Image = "" <;> simp [parts, appendCmd, appendImage, hd, hi]

/-- C10 (witness): the container command `echo hi` against the image command
`bash`. -/
theorem missing_arg_appends_cmd_witness :
    (∃ p ∈ echoContainer.Config.Cmd, p ∉ bashImage.Config.Cmd) ∧
    parts echoContainer bashImage = ["docker", "run", "img"] ++ ["echo", "hi"] := by
  have hex : ∃ p ∈ echoContainer.Config.Cmd, p ∉ bashImage.Config.Cmd :=
    ⟨"echo", by decide, by decide⟩
  refine ⟨hex, ?_⟩
  rw [missing_arg_appends_cmd echoContainer bashImage hex]
  decide

/-! ### C11: the shape of the token sequence -/

/-- C11: the token sequence is `docker`, `run`, then the flag tokens, then
the image reference when it is non-empty, then either nothing or the whole
container command-argument list; the printed line is the tokens joined with
single spaces. -/
theorem token_sequence_shape (ctr : Container) (img : Image) :
    ∃ flagTokens cmdTokens : List String,
      flagParts ctr = ["docker", "run"] ++ flagTokens ∧
      parts ctr img =
        ["docker", "run"] ++ flagTokens
          ++ (if ctr.Config.Image ≠ "" then [ctr.Config.Image] else []) ++ cmdTokens ∧
      (cmdTokens = [] ∨ cmdTokens = ctr.Config.Cmd) ∧
      (parts ctr img).take 2 = ["docker", "run"] ∧
      output ctr img = " ".intercalate (parts ctr img) ++ "\n" := by
  obtain ⟨t, ht⟩ := flagParts_base ctr
  refine ⟨t, if hasDiffArg ctr.Config.Cmd img.Config.Cmd then ctr.Config.Cmd else [], ht, ?_, ?_,
    ?_, ?_⟩
  · simp only [parts, ht, appendImage, appendCmd]
    by_cases hi : ctr.Config.Image = "" <;>
      by_cases hd : hasDiffArg ctr.Config.Cmd img.Config.Cmd = true <;> simp [hi, hd]
  · by_cases hd : hasDiffArg ctr.Config.Cmd img.Config.Cmd = true <;> simp [hd]
  · simp only [parts, ht, appendImage, appendCmd]
    by_cases hi : ctr.Config.Image = "" <;>
      by_cases hd : hasDiffArg ctr.Config.Cmd img.Config.Cmd = true <;> simp [hi, hd]
  · simp only [output, join_eq_intercalate]

/-! ### C12: hostname -/

/-- C12: the pair `--hostname h` is appended if and only if the hostname `h`
is non-empty and the container ID does not start with `h`; a hostname that
is a leading part of the ID appends nothing.  The statement is a statement of
`main`, run on the tokens of the statements before it, and its result heads
the final token sequence. -/
theorem hostname_pair (ctr : Container) (parts : List String) :
    (ctr.Config.Hostname ≠ "" → (¬ ∃ rest, ctr.ID = ctr.Config.Hostname ++ rest) →
      appendHostname ctr parts = parts ++ ["--hostname", ctr.Config.Hostname]) ∧
    (ctr.Config.Hostname = "" → appendHostname ctr parts = parts) ∧
    ((∃ rest, ctr.ID = ctr.Config.Hostname ++ rest) → appendHostname ctr parts = parts) ∧
    (appendHostname ctr parts ≠ parts ↔
      ctr.Config.Hostname ≠ "" ∧ ¬ ∃ rest, ctr.ID = ctr.Config.Hostname ++ rest) ∧
    StatementAt 5 appendHostname ctr := by
  have key := hasPrefix_iff ctr.ID ctr.Config.Hostname
  refine ⟨?_, ?_, ?_, ?_, statementAt_of_get ctr _ _ rfl rfl⟩
  · intro h1 h2
    have h3 : ¬ strings.HasPrefix ctr.ID ctr.Config.Hostname = true := fun h => h2 (key.1 h)
    simp [appendHostname, h1, h3]
  · intro h1; simp [appendHostname, h1]
  · intro h1
    simp [appendHostname, key.2 h1]
  · by_cases h1 : ctr.Config.Hostname = ""
    · simp [appendHostname, h1]
    · by_cases h3 : strings.HasPrefix ctr.ID ctr.Config.Hostname = true
      · have h4 := key.1 h3
        simp only [appendHostname, h3, not_true_eq_false, and_false, if_false, ne_eq,
          not_true_eq_false, false_iff, not_and, not_not]
        exact fun _ => h4
      · have h4 : ¬ ∃ rest, ctr.ID = ctr.Config.Hostname ++ rest := fun h => h3 (key.2 h)
        simp [appendHostname, h1, h3]
        exact fun x hx => h4 ⟨x, hx⟩

/-- C12 (witness): the hostname `web` on a container whose ID starts
otherwise, the hostname `abc123` on the container `abc123def456`, and the
token sequence that `main` builds for the hostname `web`. -/
theorem hostname_pair_witness :
    appendHostname { ID := "abc123def456", Config := { Hostname := "web" } } ["docker", "run"] =
      ["docker", "run", "--hostname", "web"] ∧
    appendHostname { ID := "abc123def456", Config := { Hostname := "abc123" } }
      ["docker", "run"] = ["docker", "run"] ∧
    (∃ post,
      parts
          { ID := "abc123def456", Config := { Hostname := "web" },
            HostConfig := defaultHostConfig } {} =
        ["docker", "run", "--detach", "--hostname", "web"] ++ post) ∧
    parts
        { ID := "abc123def456", Config := { Hostname := "web" },
          HostConfig := defaultHostConfig } {} =
      ["docker", "run", "--detach", "--hostname", "web"] := by
  refine ⟨?_, (hostname_pair { ID := "abc123def456", Config := { Hostname := "abc123" } }
    ["docker", "run"]).2.2.1 ⟨"def456", by decide⟩, ?_⟩
  · refine (hostname_pair { ID := "abc123def456", Config := { Hostname := "web" } }
      ["docker", "run"]).1 (by decide) ?_
    rintro ⟨rest, h⟩
    have h2 := (hasPrefix_iff "abc123def456" "web").2 ⟨rest, h⟩
    exact absurd h2 (by decide)
  · refine ⟨?_, by decide⟩
    obtain ⟨post, hp⟩ := (hostname_pair
      { ID := "abc123def456", Config := { Hostname := "web" }, HostConfig := defaultHostConfig }
      ["docker", "run"]).2.2.2.2.2 {}
    refine ⟨post, ?_⟩
    rw [hp]
    congr 1

/-! ### C13: name -/

/-- C13: a non-empty name appends `--name` and the base of the name; for a
name `pre/b` with `b` non-empty and free of slashes the value is exactly `b`;
an empty name appends nothing.  The statement is a statement of
`main`, run on the tokens of the statements before it, and its result heads
the final token sequence. -/
theorem name_pair (ctr : Container) (parts : List String) :
    (ctr.Name ≠ "" → appendName ctr parts = parts ++ ["--name", path.Base ctr.Name]) ∧
    (∀ pre b : String, ctr.Name = pre ++ "/" ++ b → b ≠ "" → '/' ∉ b.data →
      appendName ctr parts = parts ++ ["--name", b]) ∧
    (ctr.Name = "" → appendName ctr parts = parts) ∧
    StatementAt 4 appendName ctr := by
  refine ⟨?_, ?_, ?_, statementAt_of_get ctr _ _ rfl rfl⟩
  · intro h; simp [appendName, h]
  · intro pre b hn hb hs
    have hne : ctr.Name ≠ "" := by
      intro e
      have := congrArg String.data (hn.symm.trans e)
      simp [String.data_append] at this
    simp [appendName, hne]
    rw [hn, base_of_slash pre b hb hs]
  · intro h; simp [appendName, h]

/-- C13 (witness): the name `/web`, the empty name, and the token sequence
that `main` builds for the name `/web`. -/
theorem name_pair_witness :
    appendName { Name := "/web" } ["docker", "run"] = ["docker", "run", "--name", "web"] ∧
    appendName {} ["docker", "run"] = ["docker", "run"] ∧
    (∃ post, parts { Name := "/web", HostConfig := defaultHostConfig } {} =
      ["docker", "run", "--detach", "--name", "web"] ++ post) ∧
    parts { Name := "/web", HostConfig := defaultHostConfig } {} =
      ["docker", "run", "--detach", "--name", "web"] := by
  refine ⟨(name_pair { Name := "/web" } ["docker", "run"]).2.1 "" "web" (by decide) (by decide)
      (by decide),
    (name_pair {} ["docker", "run"]).2.2.1 rfl, ?_⟩
  refine ⟨?_, by decide⟩
  obtain ⟨post, hp⟩ :=
    (name_pair { Name := "/web", HostConfig := defaultHostConfig } ["docker", "run"]).2.2.2.2 {}
  refine ⟨post, ?_⟩
  rw [hp]
  congr 1

/-! ### C14: integer resource fields -/

/-- C14 (counterexample): with pids-limit -1, a non-zero value, no
`--pids-limit` flag is appended; likewise for block-IO weight -1. -/
theorem negative_limits_omitted :
    appendPidsLimit { HostConfig := { PidsLimit := -1 } } ["docker", "run"] = ["docker", "run"] ∧
    appendBlkioWeight { HostConfig := { BlkioWeight := -1 } } ["docker", "run"] =
      ["docker", "run"] ∧
    parts { HostConfig := { defaultHostConfig with PidsLimit := -1, BlkioWeight := -1 } } {} =
      ["docker", "run", "--detach"] := by
  refine ⟨by decide, by decide, by decide⟩

/-- C14 (amended): a non-zero CPU period, CPU quota, CPU shares or
OOM-score-adjust appends its flag followed by the decimal rendering of the
value; pids-limit and block-IO weight append their flag and the decimal
rendering exactly when the value is positive, and nothing when it is zero or
negative.  Each of the six statements is a statement of `main`, run on the
tokens of the statements before it, and its result heads the final token
sequence. -/
theorem integer_fields (ctr : Container) (parts : List String) :
    (ctr.HostConfig.CPUPeriod ≠ 0 →
      appendCPUPeriod ctr parts =
        parts ++ ["--cpu-period", strconv.FormatInt ctr.HostConfig.CPUPeriod]) ∧
    (ctr.HostConfig.CPUQuota ≠ 0 →
      appendCPUQuota ctr parts =
        parts ++ ["--cpu-quota", strconv.FormatInt ctr.HostConfig.CPUQuota]) ∧
    (ctr.HostConfig.CPUShares ≠ 0 →
      appendCPUShares ctr parts =
        parts ++ ["--cpu-shares", strconv.FormatInt ctr.HostConfig.CPUShares]) ∧
    (ctr.HostConfig.OomScoreAdj ≠ 0 →
      appendOomScoreAdj ctr parts =
        parts ++ ["--oom-score-adj", strconv.Itoa ctr.HostConfig.OomScoreAdj]) ∧
    (0 < ctr.HostConfig.PidsLimit →
      appendPidsLimit ctr parts =
        parts ++ ["--pids-limit", strconv.FormatInt ctr.HostConfig.PidsLimit]) ∧
    (ctr.HostConfig.PidsLimit ≤ 0 → appendPidsLimit ctr parts = parts) ∧
    (0 < ctr.HostConfig.BlkioWeight →
      appendBlkioWeight ctr parts =
        parts ++ ["--blkio-weight", strconv.FormatInt ctr.HostConfig.BlkioWeight]) ∧
    (ctr.HostConfig.BlkioWeight ≤ 0 → appendBlkioWeight ctr parts = parts) ∧
    StatementAt 12 appendCPUPeriod ctr ∧ StatementAt 13 appendCPUQuota ctr ∧
    StatementAt 14 appendCPUShares ctr ∧ StatementAt 41 appendOomScoreAdj ctr ∧
    StatementAt 48 appendPidsLimit ctr ∧ StatementAt 34 appendBlkioWeight ctr := by
  have hs : ∀ n step, flagSteps.get? n = some step → StatementAt n step ctr :=
    fun n step h => statementAt_of_get ctr n step rfl h
  refine ⟨?_, ?_, ?_, ?_, ?_, ?_, ?_, ?_, hs _ _ rfl, hs _ _ rfl, hs _ _ rfl, hs _ _ rfl, hs _ _
    rfl, hs _ _ rfl⟩ <;> intro h
  · simp [appendCPUPeriod, h]
  · simp [appendCPUQuota, h]
  · simp [appendCPUShares, h]
  · simp [appendOomScoreAdj, h]
  · simp [appendPidsLimit, h]
  · simp [appendPidsLimit, Int.not_lt.2 h]
  · simp [appendBlkioWeight, h]
  · simp [appendBlkioWeight, Int.not_lt.2 h]

/-- C14 (witness): CPU quota -1, OOM-score-adjust -500, pids-limit 100 and
pids-limit -1, and the token sequence that `main` builds for CPU quota -1
with pids-limit 100. -/
theorem integer_fields_witness :
    appendCPUQuota { HostConfig := { CPUQuota := -1 } } ["docker", "run"] =
      ["docker", "run", "--cpu-quota", "-1"] ∧
    appendOomScoreAdj { HostConfig := { OomScoreAdj := -500 } } ["docker", "run"] =
      ["docker", "run", "--oom-score-adj", "-500"] ∧
    appendPidsLimit { HostConfig := { PidsLimit := 100 } } ["docker", "run"] =
      ["docker", "run", "--pids-limit", "100"] ∧
    appendPidsLimit { HostConfig := { PidsLimit := -1 } } ["docker", "run"] =
      ["docker", "run"] ∧
    (∃ post,
      parts { HostConfig := { defaultHostConfig with CPUQuota := -1, PidsLimit := 100 } } {} =
        ["docker", "run", "--detach", "--cpu-quota", "-1", "--pids-limit", "100"] ++ post) ∧
    parts { HostConfig := { defaultHostConfig with CPUQuota := -1, PidsLimit := 100 } } {} =
      ["docker", "run", "--detach", "--cpu-quota", "-1", "--pids-limit", "100"] := by
  refine ⟨?_, ?_, ?_,
    (integer_fields { HostConfig := { PidsLimit := -1 } } ["docker", "run"]).2.2.2.2.2.1
      (by decide), ?_⟩
  · rw [(integer_fields { HostConfig := { CPUQuota := -1 } } ["docker", "run"]).2.1 (by decide)]
    decide
  · rw [(integer_fields { HostConfig := { OomScoreAdj := -500 } }
      ["docker", "run"]).2.2.2.1 (by decide)]
    decide
  · rw [(integer_fields { HostConfig := { PidsLimit := 100 } }
      ["docker", "run"]).2.2.2.2.1 (by decide)]
    decide
  · refine ⟨?_, by decide⟩
    obtain ⟨post, hp⟩ := (integer_fields
      { HostConfig := { defaultHostConfig with CPUQuota := -1, PidsLimit := 100 } }
      ["docker", "run"]).2.2.2.2.2.2.2.2.2.2.2.2.1.2 {}
    refine ⟨post, ?_⟩
    rw [hp]
    congr 1

/-! ### C15: compound values -/

/-- C15 (counterexample): a block-IO weight device whose path is empty
appends no pair at all, though its weight is present; and a device whose
in-container path is empty loses its cgroup permissions. -/
theorem weight_device_without_path :
    appendBlkioWeightDevice
        { HostConfig := { BlkioWeightDevice := [{ Path := "", Weight := "500" }] } }
        ["docker", "run"] = ["docker", "run"] ∧
    colonJoinPresent ["", "500"] = "500" ∧
    appendDevices
        { HostConfig := { Devices := [{ PathOnHost := "/dev/sda", CgroupPermissions := "rwm" }] } }
        ["docker", "run"] = ["docker", "run", "--device", "/dev/sda"] ∧
    colonJoinPresent ["/dev/sda", "", "rwm"] = "/dev/sda:rwm" := by
  refine ⟨by decide, by decide, by decide, by decide⟩

/-- C15 (amended): every entry of a compound-value field is translated on
its own.  Every device mapping and every per-device read or write bps or
IOPS limit appends exactly one pair of the field's flag and a value; a
block-IO weight device appends exactly one pair when its path is non-empty
and nothing when its path is empty.  The value is the path, then a colon and
the weight, rate or in-container path when that is non-empty, then for a
device a colon and the cgroup permissions when these and the in-container
path are non-empty.  For an entry whose path is non-empty (for a device: and
whose cgroup permissions are empty whenever its in-container path is empty)
this value is the colon-joined string of the entry's non-empty sub-fields in
the order path, then weight, rate or in-container path, then cgroup
permissions.  Each of the six loops is a statement of `main`, run on the
tokens of the statements before it, and its result heads the final token
sequence. -/
theorem compound_values (ctr : Container) (parts : List String) :
    appendBlkioWeightDevice ctr parts =
        parts ++ ctr.HostConfig.BlkioWeightDevice.flatMap (fun e =>
          if e.Path ≠ "" then
            ["--blkio-weight-device", colonJoinPresent [e.Path, e.Weight]]
          else []) ∧
    appendDevices ctr parts =
        parts ++ ctr.HostConfig.Devices.flatMap (fun e =>
          ["--device",
            e.PathOnHost ++
              (if e.PathInContainer ≠ "" then
                ":" ++ e.PathInContainer ++
                  (if e.CgroupPermissions ≠ "" then ":" ++ e.CgroupPermissions else "")
              else "")]) ∧
    (∀ e : Device, e.PathOnHost ≠ "" → (e.PathInContainer = "" → e.CgroupPermissions = "") →
      e.PathOnHost ++
          (if e.PathInContainer ≠ "" then
            ":" ++ e.PathInContainer ++
              (if e.CgroupPermissions ≠ "" then ":" ++ e.CgroupPermissions else "")
          else "") =
        colonJoinPresent [e.PathOnHost, e.PathInContainer, e.CgroupPermissions]) ∧
    appendBlkioDeviceReadBps ctr parts =
        parts ++ ctr.HostConfig.BlkioDeviceReadBps.flatMap (fun e =>
          ["--device-read-bps", e.Path ++ (if e.Rate ≠ "" then ":" ++ e.Rate else "")]) ∧
    appendBlkioDeviceWriteBps ctr parts =
        parts ++ ctr.HostConfig.BlkioDeviceWriteBps.flatMap (fun e =>
          ["--device-write-bps", e.Path ++ (if e.Rate ≠ "" then ":" ++ e.Rate else "")]) ∧
    appendBlkioDeviceReadIOps ctr parts =
        parts ++ ctr.HostConfig.BlkioDeviceReadIOps.flatMap (fun e =>
          ["--device-read-iops", e.Path ++ (if e.Rate ≠ "" then ":" ++ e.Rate else "")]) ∧
    appendBlkioDeviceWriteIOps ctr parts =
        parts ++ ctr.HostConfig.BlkioDeviceWriteIOps.flatMap (fun e =>
          ["--device-write-iops", e.Path ++ (if e.Rate ≠ "" then ":" ++ e.Rate else "")]) ∧
    (∀ e : BlockLimit, e.Path ≠ "" →
      e.Path ++ (if e.Rate ≠ "" then ":" ++ e.Rate else "") =
        colonJoinPresent [e.Path, e.Rate]) ∧
    StatementAt 36 appendBlkioWeightDevice ctr ∧ StatementAt 56 appendDevices ctr ∧
    StatementAt 57 appendBlkioDeviceReadBps ctr ∧ StatementAt 58 appendBlkioDeviceWriteBps ctr ∧
    StatementAt 59 appendBlkioDeviceReadIOps ctr ∧
    StatementAt 60 appendBlkioDeviceWriteIOps ctr := by
  have hlimit : ∀ bl : BlockLimit,
      blockLimitValue bl = bl.Path ++ (if bl.Rate ≠ "" then ":" ++ bl.Rate else "") := by
    intro bl
    by_cases hr : bl.Rate = "" <;> simp [blockLimitValue, hr]
  have hs : ∀ n step, flagSteps.get? n = some step → StatementAt n step ctr :=
    fun n step h => statementAt_of_get ctr n step rfl h
  refine ⟨?_, ?_, ?_, ?_, ?_, ?_, ?_, ?_, hs _ _ rfl, hs _ _ rfl, hs _ _ rfl, hs _ _ rfl, hs _ _
    rfl, hs _ _ rfl⟩
  · refine foldl_tokens_congr _ _ _ (fun e _ p => ?_) _
    by_cases hp : e.Path = "" <;> by_cases hw : e.Weight = "" <;>
      simp [blkioWeightDeviceRes, colonJoinPresent, List.filter, hp, hw, strings.Join,
        String.intercalate, String.intercalate.go]
  · refine foldl_tokens_congr _ _ _ (fun e _ p => ?_) _
    by_cases hi : e.PathInContainer = "" <;> by_cases hg : e.CgroupPermissions = "" <;>
      simp [hi, hg, String.append_assoc]
  · intro e hp hc
    by_cases hi : e.PathInContainer = ""
    · simp [colonJoinPresent, List.filter, hp, hi, hc hi, String.intercalate,
        String.intercalate.go]
    · by_cases hg : e.CgroupPermissions = "" <;>
        simp [colonJoinPresent, List.filter, hp, hi, hg, String.intercalate,
          String.intercalate.go, String.append_assoc]
  · exact foldl_tokens_congr _ _ _ (fun e _ p => by rw [hlimit e]) _
  · exact foldl_tokens_congr _ _ _ (fun e _ p => by rw [hlimit e]) _
  · exact foldl_tokens_congr _ _ _ (fun e _ p => by rw [hlimit e]) _
  · exact foldl_tokens_congr _ _ _ (fun e _ p => by rw [hlimit e]) _
  · intro e hp
    by_cases hr : e.Rate = "" <;>
      simp [colonJoinPresent, List.filter, hp, hr, String.intercalate, String.intercalate.go,
        String.append_assoc]

/-- C15 (witness): a weight device `/dev/sda:500` beside one without a path,
a device with all three sub-fields, a read limit, and the token sequence
that `main` builds for the two weight devices. -/
theorem compound_values_witness :
    appendBlkioWeightDevice
        { HostConfig :=
            { BlkioWeightDevice :=
                [{ Path := "", Weight := "100" }, { Path := "/dev/sda", Weight := "500" }] } }
        ["docker", "run"] = ["docker", "run", "--blkio-weight-device", "/dev/sda:500"] ∧
    appendDevices
        { HostConfig :=
            { Devices :=
                [{ PathOnHost := "/dev/sda", PathInContainer := "/dev/xvda",
                   CgroupPermissions := "rwm" }] } }
        ["docker", "run"] = ["docker", "run", "--device", "/dev/sda:/dev/xvda:rwm"] ∧
    colonJoinPresent ["/dev/sda", "/dev/xvda", "rwm"] = "/dev/sda:/dev/xvda:rwm" ∧
    "/dev/sda" ++ (if ("1mb" : String) ≠ "" then ":" ++ "1mb" else "") =
      colonJoinPresent ["/dev/sda", "1mb"] ∧
    (∃ post,
      parts
          { HostConfig :=
              { defaultHostConfig with
                BlkioWeightDevice :=
                  [{ Path := "", Weight := "100" }, { Path := "/dev/sda", Weight := "500" }] } }
          {} =
        ["docker", "run", "--detach", "--blkio-weight-device", "/dev/sda:500"] ++ post) ∧
    parts
        { HostConfig :=
            { defaultHostConfig with
              BlkioWeightDevice :=
                [{ Path := "", Weight := "100" }, { Path := "/dev/sda", Weight := "500" }] } }
        {} =
      ["docker", "run", "--detach", "--blkio-weight-device", "/dev/sda:500"] := by
  refine ⟨?_, ?_, ?_, ?_, ?_⟩
  · rw [(compound_values
      { HostConfig :=
          { BlkioWeightDevice :=
              [{ Path := "", Weight := "100" }, { Path := "/dev/sda", Weight := "500" }] } }
      ["docker", "run"]).1]
    decide
  · rw [(compound_values
      { HostConfig :=
          { Devices :=
              [{ PathOnHost := "/dev/sda", PathInContainer := "/dev/xvda",
                 CgroupPermissions := "rwm" }] } }
      ["docker", "run"]).2.1]
    decide
  · rw [← (compound_values {} []).2.2.1
      { PathOnHost := "/dev/sda", PathInContainer := "/dev/xvda", CgroupPermissions := "rwm" }
      (by decide) (by decide)]
    decide
  · exact (compound_values {} []).2.2.2.2.2.2.2.1 { Path := "/dev/sda", Rate := "1mb" }
      (by decide)
  · refine ⟨?_, by decide⟩
    obtain ⟨post, hp⟩ := (compound_values
      { HostConfig :=
          { defaultHostConfig with
            BlkioWeightDevice :=
              [{ Path := "", Weight := "100" }, { Path := "/dev/sda", Weight := "500" }] } }
      ["docker", "run"]).2.2.2.2.2.2.2.2.1.2 {}
    refine ⟨post, ?_⟩
    rw [hp]
    congr 1

/-! ### C16: repeated values -/

/-- C16: each repeated-value field appends one pair of its flag and the
entry for every entry of its list, in the order of the list, and nothing for
an empty list.  Each of the eleven loops is a statement of `main`, run on the
tokens of the statements before it, and its result heads the final token
sequence. -/
theorem repeated_values (ctr : Container) (parts : List String) :
    appendBinds ctr parts =
      parts ++ ctr.HostConfig.Binds.flatMap (fun x => ["--volume", x]) ∧
    appendVolumesFrom ctr parts =
      parts ++ ctr.HostConfig.VolumesFrom.flatMap (fun x => ["--volumes-from", x]) ∧
    appendCapAdd ctr parts =
      parts ++ ctr.HostConfig.CapAdd.flatMap (fun x => ["--cap-add", x]) ∧
    appendCapDrop ctr parts =
      parts ++ ctr.HostConfig.CapDrop.flatMap (fun x => ["--cap-drop", x]) ∧
    appendGroupAdd ctr parts =
      parts ++ ctr.HostConfig.GroupAdd.flatMap (fun x => ["--group-add", x]) ∧
    appendLinks ctr parts =
      parts ++ ctr.HostConfig.Links.flatMap (fun x => ["--link", x]) ∧
    appendDNS ctr parts =
      parts ++ ctr.HostConfig.DNS.flatMap (fun x => ["--dns", x]) ∧
    appendDNSOptions ctr parts =
      parts ++ ctr.HostConfig.DNSOptions.flatMap (fun x => ["--dns-opt", x]) ∧
    appendDNSSearch ctr parts =
      parts ++ ctr.HostConfig.DNSSearch.flatMap (fun x => ["--dns-search", x]) ∧
    appendExtraHosts ctr parts =
      parts ++ ctr.HostConfig.ExtraHosts.flatMap (fun x => ["--add-host", x]) ∧
    appendSecurityOpt ctr parts =
      parts ++ ctr.HostConfig.SecurityOpt.flatMap (fun x => ["--security-opt", x]) ∧
    StatementAt 23 appendBinds ctr ∧ StatementAt 25 appendVolumesFrom ctr ∧
    StatementAt 26 appendCapAdd ctr ∧ StatementAt 27 appendCapDrop ctr ∧
    StatementAt 28 appendGroupAdd ctr ∧ StatementAt 29 appendLinks ctr ∧
    StatementAt 30 appendDNS ctr ∧ StatementAt 31 appendDNSOptions ctr ∧
    StatementAt 32 appendDNSSearch ctr ∧ StatementAt 37 appendExtraHosts ctr ∧
    StatementAt 55 appendSecurityOpt ctr := by
  have hs : ∀ n step, flagSteps.get? n = some step → StatementAt n step ctr :=
    fun n step h => statementAt_of_get ctr n step rfl h
  refine ⟨?_, ?_, ?_, ?_, ?_, ?_, ?_, ?_, ?_, ?_, ?_, hs _ _ rfl, hs _ _ rfl, hs _ _ rfl, hs _ _
    rfl, hs _ _ rfl, hs _ _ rfl, hs _ _ rfl, hs _ _ rfl, hs _ _ rfl, hs _ _ rfl, hs _ _ rfl⟩
  · simp only [appendBinds, foldl_append_tokens]
    cases hb : ctr.HostConfig.Binds with
    | nil => simp
    | cons b bs => simp
  · simp only [appendVolumesFrom, foldl_append_tokens]
  · simp only [appendCapAdd, foldl_append_tokens]
  · simp only [appendCapDrop, foldl_append_tokens]
  · simp only [appendGroupAdd, foldl_append_tokens]
  · simp only [appendLinks, foldl_append_tokens]
  · simp only [appendDNS, foldl_append_tokens]
  · simp only [appendDNSOptions, foldl_append_tokens]
  · simp only [appendDNSSearch, foldl_append_tokens]
  · simp only [appendExtraHosts, foldl_append_tokens]
  · simp only [appendSecurityOpt, foldl_append_tokens]

/-! ### C17: publish-all -/

/-- C17: with publish-all set the port-bindings rule appends nothing,
whatever the port-binding map holds, while the bare flag `--publish-all` is
appended; with publish-all not set the rule appends one `--publish` pair for
each of a list of values whose length is the total number of bindings over
all container ports.  Both statements are statements of `main`, run on the
tokens of the statements before them, and their results head the final token
sequence. -/
theorem publish_all_rule (ctr : Container) (parts : List String) :
    (ctr.HostConfig.PublishAllPorts = true →
      appendPortBindings ctr parts = parts ∧
        appendPublishAllPorts ctr parts = parts ++ ["--publish-all"]) ∧
    (ctr.HostConfig.PublishAllPorts = false →
      ∃ values : List String,
        appendPortBindings ctr parts = parts ++ values.flatMap (fun v => ["--publish", v]) ∧
          values.length = (ctr.HostConfig.PortBindings.map (fun entry => entry.2.length)).sum) ∧
    StatementAt 61 appendPortBindings ctr ∧ StatementAt 18 appendPublishAllPorts ctr := by
  have hs : ∀ n step, flagSteps.get? n = some step → StatementAt n step ctr :=
    fun n step h => statementAt_of_get ctr n step rfl h
  refine ⟨?_, ?_, hs _ _ rfl, hs _ _ rfl⟩
  · intro h
    simp [appendPortBindings, appendPublishAllPorts, h]
  · intro h
    refine ⟨ctr.HostConfig.PortBindings.flatMap (fun entry =>
      entry.2.map (fun pb => publishValue entry.1 pb)), ?_, ?_⟩
    · rw [appendPortBindings_eq ctr parts h]
      congr 1
      induction ctr.HostConfig.PortBindings with
      | nil => rfl
      | cons e es ih =>
        simp only [List.flatMap_cons, List.flatMap_append, ih]
        congr 1
        induction e.2 with
        | nil => rfl
        | cons b bs ihb => simp [List.flatMap_cons, ihb]
    · induction ctr.HostConfig.PortBindings with
      | nil => rfl
      | cons e es ih => simp [List.flatMap_cons, ih]

/-- C17 (witness): the two published ports with publish-all set, and with
publish-all not set, and the token sequence that `main` builds with
publish-all set. -/
theorem publish_all_rule_witness :
    appendPortBindings
        { HostConfig := { publishContainer.HostConfig with PublishAllPorts := true } }
        ["docker", "run"] = ["docker", "run"] ∧
    appendPublishAllPorts
        { HostConfig := { publishContainer.HostConfig with PublishAllPorts := true } }
        ["docker", "run"] = ["docker", "run", "--publish-all"] ∧
    (∃ values : List String,
      appendPortBindings publishContainer ["docker", "run"] =
          ["docker", "run"] ++ values.flatMap (fun v => ["--publish", v]) ∧
        values.length = 2) ∧
    (∃ post,
      parts { HostConfig := { publishContainer.HostConfig with PublishAllPorts := true } } {} =
        ["docker", "run", "--detach", "--publish-all"] ++ post) ∧
    parts { HostConfig := { publishContainer.HostConfig with PublishAllPorts := true } } {} =
      ["docker", "run", "--detach", "--publish-all"] := by
  have h1 := (publish_all_rule
    { HostConfig := { publishContainer.HostConfig with PublishAllPorts := true } }
    ["docker", "run"]).1 rfl
  obtain ⟨values, h2, h3⟩ := (publish_all_rule publishContainer ["docker", "run"]).2.1 rfl
  refine ⟨h1.1, h1.2, ⟨values, h2, h3.trans (by decide)⟩, ?_⟩
  refine ⟨?_, by decide⟩
  obtain ⟨post, hp⟩ := (publish_all_rule
    { HostConfig := { publishContainer.HostConfig with PublishAllPorts := true } }
    ["docker", "run"]).2.2.1.2 {}
  refine ⟨post, ?_⟩
  rw [hp]
  congr 1

/-! ### C18: the command comparison -/

/-- C18: the command statement appends the whole container list `c` when
some element of `c` equals no element of the image list `d`, and nothing
otherwise; so nothing is appended when `c` is empty, when `c` is a reordering
of `d`, or when every value of `c` occurs in `d`.  These tokens come after
the image reference. -/
theorem cmd_tokens_by_membership (ctr : Container) (img : Image) (before : List String) :
    ((∃ p ∈ ctr.Config.Cmd, p ∉ img.Config.Cmd) →
      appendCmd ctr img before = before ++ ctr.Config.Cmd) ∧
    ((∀ p ∈ ctr.Config.Cmd, p ∈ img.Config.Cmd) → appendCmd ctr img before = before) ∧
    (ctr.Config.Cmd = [] → appendCmd ctr img before = before) ∧
    (ctr.Config.Cmd.Perm img.Config.Cmd → appendCmd ctr img before = before) ∧
    parts ctr img = appendCmd ctr img (appendImage ctr (flagParts ctr)) := by
  have hno : (∀ p ∈ ctr.Config.Cmd, p ∈ img.Config.Cmd) → appendCmd ctr img before = before := by
    intro h
    have hd : hasDiffArg ctr.Config.Cmd img.Config.Cmd = false := by
      cases hb : hasDiffArg ctr.Config.Cmd img.Config.Cmd with
      | false => rfl
      | true =>
        obtain ⟨p, hp, hnp⟩ := (hasDiffArg_eq_true_iff _ _).1 hb
        exact absurd (h p hp) hnp
    simp [appendCmd, hd]
  refine ⟨?_, hno, ?_, ?_, rfl⟩
  · intro h
    have hd : hasDiffArg ctr.Config.Cmd img.Config.Cmd = true :=
      (hasDiffArg_eq_true_iff _ _).2 h
    simp [appendCmd, hd]
  · intro h
    exact hno (by simp [h])
  · intro h
    exact hno (fun p hp => h.subset hp)

/-- C18 (witness): `echo hi` against `bash` is appended whole; `echo echo`
against `echo hi` and the reordering `hi echo` of `echo hi` append nothing. -/
theorem cmd_tokens_by_membership_witness :
    appendCmd echoContainer bashImage ["docker", "run", "img"] =
      ["docker", "run", "img", "echo", "hi"] ∧
    appendCmd { Config := { Cmd := ["echo", "echo"] } } echoImage ["docker", "run", "img"] =
      ["docker", "run", "img"] ∧
    appendCmd reorderedContainer echoImage ["docker", "run", "img"] =
      ["docker", "run", "img"] :=
  ⟨(cmd_tokens_by_membership echoContainer bashImage ["docker", "run", "img"]).1
      ⟨"echo", by decide, by decide⟩,
   (cmd_tokens_by_membership { Config := { Cmd := ["echo", "echo"] } } echoImage
      ["docker", "run", "img"]).2.1 (by decide),
   (cmd_tokens_by_membership reorderedContainer echoImage
      ["docker", "run", "img"]).2.2.2.1 (List.Perm.swap "echo" "hi" [])⟩

/-! ### C19: logging -/

/-- C19: the logging rule appends `--log-driver` and the driver type,
followed by one pair `--log-opt key=value` for each log option, if and only
if the type is not `json-file` or there is an option; otherwise it appends
nothing.  So the log options always follow a `--log-driver` pair, and there
are as many `--log-opt` pairs as options.  The rule is a statement of `main`,
run on the tokens of the statements before it, and its result heads the final
token sequence. -/
theorem log_rule (ctr : Container) (parts : List String) :
    (ctr.HostConfig.LogConfig.Type_ ≠ "json-file" ∨ ctr.HostConfig.LogConfig.Config ≠ [] →
      appendLogConfig ctr parts =
        parts ++ ["--log-driver", ctr.HostConfig.LogConfig.Type_]
          ++ (ctr.HostConfig.LogConfig.Config.map (fun kv => kv.1 ++ "=" ++ kv.2)).flatMap
              (fun opt => ["--log-opt", opt])) ∧
    (ctr.HostConfig.LogConfig.Type_ = "json-file" → ctr.HostConfig.LogConfig.Config = [] →
      appendLogConfig ctr parts = parts) ∧
    (appendLogConfig ctr parts ≠ parts ↔
      ctr.HostConfig.LogConfig.Type_ ≠ "json-file" ∨ ctr.HostConfig.LogConfig.Config ≠ []) ∧
    (ctr.HostConfig.LogConfig.Config.map (fun kv => kv.1 ++ "=" ++ kv.2)).length =
      ctr.HostConfig.LogConfig.Config.length ∧
    StatementAt 54 appendLogConfig ctr := by
  have hpos : ∀ l : List (String × String), 0 < l.length ↔ l ≠ [] := fun l =>
    List.length_pos
  have h1 : ctr.HostConfig.LogConfig.Type_ ≠ "json-file" ∨ ctr.HostConfig.LogConfig.Config ≠ [] →
      appendLogConfig ctr parts =
        parts ++ ["--log-driver", ctr.HostConfig.LogConfig.Type_]
          ++ (ctr.HostConfig.LogConfig.Config.map (fun kv => kv.1 ++ "=" ++ kv.2)).flatMap
              (fun opt => ["--log-opt", opt]) := by
    intro h
    simp only [appendLogConfig, hpos, h, if_true, foldl_append_tokens, keyValue]
    congr 1
    induction ctr.HostConfig.LogConfig.Config with
    | nil => rfl
    | cons kv kvs ih => simp [List.flatMap_cons, ih]
  have h2 : ctr.HostConfig.LogConfig.Type_ = "json-file" →
      ctr.HostConfig.LogConfig.Config = [] → appendLogConfig ctr parts = parts := by
    intro ht hc
    simp [appendLogConfig, ht, hc]
  refine ⟨h1, h2, ?_, List.length_map _ _, statementAt_of_get ctr _ _ rfl rfl⟩
  by_cases h : ctr.HostConfig.LogConfig.Type_ ≠ "json-file" ∨ ctr.HostConfig.LogConfig.Config ≠ []
  · rw [h1 h]
    simp [h]
  · have h' := h
    simp only [not_or, not_not] at h'
    rw [h2 h'.1 h'.2]
    simp [h]

/-- C19 (witness): the driver `syslog` with one option, the driver
`json-file` with one option, the driver `json-file` without options, and the
token sequence that `main` builds for `syslog` with one option. -/
theorem log_rule_witness :
    appendLogConfig
        { HostConfig := { LogConfig := { Type_ := "syslog", Config := [("tag", "web")] } } }
        ["docker", "run"] =
      ["docker", "run", "--log-driver", "syslog", "--log-opt", "tag=web"] ∧
    appendLogConfig
        { HostConfig := { LogConfig := { Type_ := "json-file", Config := [("max-size", "10m")] } } }
        ["docker", "run"] =
      ["docker", "run", "--log-driver", "json-file", "--log-opt", "max-size=10m"] ∧
    appendLogConfig zeroConfigContainer ["docker", "run"] = ["docker", "run"] ∧
    (∃ post,
      parts
          { HostConfig :=
              { defaultHostConfig with
                LogConfig := { Type_ := "syslog", Config := [("tag", "web")] } } } {} =
        ["docker", "run", "--detach", "--log-driver", "syslog", "--log-opt", "tag=web"]
          ++ post) ∧
    parts
        { HostConfig :=
            { defaultHostConfig with
              LogConfig := { Type_ := "syslog", Config := [("tag", "web")] } } } {} =
      ["docker", "run", "--detach", "--log-driver", "syslog", "--log-opt", "tag=web"] := by
  refine ⟨?_, ?_, (log_rule zeroConfigContainer ["docker", "run"]).2.1 rfl rfl, ?_⟩
  · rw [(log_rule
      { HostConfig := { LogConfig := { Type_ := "syslog", Config := [("tag", "web")] } } }
      ["docker", "run"]).1 (Or.inl (by decide))]
    decide
  · rw [(log_rule
      { HostConfig := { LogConfig := { Type_ := "json-file", Config := [("max-size", "10m")] } } }
      ["docker", "run"]).1 (Or.inr (by decide))]
    decide
  · refine ⟨?_, by decide⟩
    obtain ⟨post, hp⟩ := (log_rule
      { HostConfig :=
          { defaultHostConfig with
            LogConfig := { Type_ := "syslog", Config := [("tag", "web")] } } }
      ["docker", "run"]).2.2.2.2.2 {}
    refine ⟨post, ?_⟩
    rw [hp]
    congr 1

/-! ### C20: the default container -/

/-- C20: when the host configuration is the default one, the remaining
container fields are neutral, the image reference is non-empty, and every
container command argument occurs among the image's command arguments, the
token sequence is exactly `docker`, `run` and the image reference. -/
theorem default_container_exact (ctr : Container) (img : Image)
    (hh : ctr.HostConfig = defaultHostConfig) (hc : ConfigNeutral ctr)
    (hi : ctr.Config.Image ≠ "") (hm : ∀ p ∈ ctr.Config.Cmd, p ∈ img.Config.Cmd) :
    parts ctr img = ["docker", "run", ctr.Config.Image] := by
  have hd : hasDiffArg ctr.Config.Cmd img.Config.Cmd = false := by
    cases hb : hasDiffArg ctr.Config.Cmd img.Config.Cmd with
    | false => rfl
    | true =>
      obtain ⟨p, hp, hnp⟩ := (hasDiffArg_eq_true_iff _ _).1 hb
      exact absurd (hm p hp) hnp
  simp [parts, flagParts_default ctr hh hc, appendImage, appendCmd, hi, hd]

/-- C20 (witness): the neutral container running `hi echo` from the image
whose default command is `echo hi`. -/
theorem default_container_exact_witness :
    reorderedContainer.HostConfig = defaultHostConfig ∧ ConfigNeutral reorderedContainer ∧
    parts reorderedContainer echoImage = ["docker", "run", "img"] :=
  ⟨rfl, by decide,
   default_container_exact reorderedContainer echoImage rfl (by decide) (by decide)
     (by decide)⟩

end dclone
